import Mathlib

/-!
Verification of the vedi Vedic-astrology computation core.

The Python source computes over IEEE doubles and Python ints; here real
arithmetic is modelled over `ℚ` and Python ints over `ℤ`.  Python's `%`
on numbers (floor semantics, result has the divisor's sign) is `pymod`
for rationals and `Int.emod` (`%`) for integers; Python's `int()` is
truncation toward zero, `pyint`; Python's `round(x, 2)` is round half to
even at two decimal places, `pyround2`.  Dates (`datetime`) enter the
dasha computations only through "add a number of days", so an instant is
modelled as a rational number of days.
-/

namespace Vedi

/-- Python float `%` with a positive modulus: `x - m * ⌊x / m⌋`. -/
def pymod (x m : ℚ) : ℚ := x - m * ⌊x / m⌋

/-- Python `int()` on a float: truncation toward zero. -/
def pyint (q : ℚ) : ℤ := if 0 ≤ q then ⌊q⌋ else ⌈q⌉

/-- Round half to even to an integer (Python `round(_, 0)` semantics). -/
def rndHalfEven (x : ℚ) : ℤ :=
  if x - ⌊x⌋ < 1/2 then ⌊x⌋
  else if 1/2 < x - ⌊x⌋ then ⌊x⌋ + 1
  else if ⌊x⌋ % 2 = 0 then ⌊x⌋ else ⌊x⌋ + 1

/-- Python `round(x, 2)`: round half to even at two decimal places. -/
def pyround2 (x : ℚ) : ℚ := (rndHalfEven (x * 100) : ℚ) / 100

theorem pymod_def (x m : ℚ) : pymod x m = x - m * ⌊x / m⌋ := rfl

theorem pyint_of_nonneg {q : ℚ} (h : 0 ≤ q) : pyint q = ⌊q⌋ := by
  rw [pyint, if_pos h]

theorem pymod_nonneg (x : ℚ) {m : ℚ} (hm : 0 < m) : 0 ≤ pymod x m := by
  rw [pymod_def]
  have h := Int.floor_le (x / m)
  have : (⌊x / m⌋ : ℚ) * m ≤ x / m * m := by
    exact mul_le_mul_of_nonneg_right h (le_of_lt hm)
  rw [div_mul_cancel₀ x (ne_of_gt hm)] at this
  linarith [this]

theorem pymod_lt (x : ℚ) {m : ℚ} (hm : 0 < m) : pymod x m < m := by
  rw [pymod_def]
  have h := Int.lt_floor_add_one (x / m)
  have : x / m * m < ((⌊x / m⌋ : ℚ) + 1) * m := by
    exact mul_lt_mul_of_pos_right h hm
  rw [div_mul_cancel₀ x (ne_of_gt hm)] at this
  nlinarith

theorem pymod_add_right (x : ℚ) {m : ℚ} (hm : m ≠ 0) : pymod (x + m) m = pymod x m := by
  rw [pymod_def, pymod_def]
  have h1 : (x + m) / m = x / m + 1 := by field_simp
  rw [h1]
  have h2 : ⌊x / m + 1⌋ = ⌊x / m⌋ + 1 := by
    exact_mod_cast Int.floor_add_int (x / m) 1
  rw [h2]
  push_cast
  ring

theorem pymod_eq_self {x m : ℚ} (h0 : 0 ≤ x) (h1 : x < m) : pymod x m = x := by
  rw [pymod_def]
  have hm : 0 < m := lt_of_le_of_lt h0 h1
  have : ⌊x / m⌋ = 0 := by
    rw [Int.floor_eq_zero_iff]
    constructor
    · exact div_nonneg h0 (le_of_lt hm)
    · rw [div_lt_one hm]; exact h1
  rw [this]
  ring

/-- Truncated division of a nonnegative value by a positive span, with the
value below `n` spans, lies in `[0, n)`. -/
theorem pyint_div_bounds (x span : ℚ) (hx0 : 0 ≤ x) (hspan : 0 < span) (n : ℤ)
    (hxn : x < n * span) : 0 ≤ pyint (x / span) ∧ pyint (x / span) < n := by
  rw [pyint_of_nonneg (div_nonneg hx0 (le_of_lt hspan))]
  constructor
  · exact Int.floor_nonneg.mpr (div_nonneg hx0 (le_of_lt hspan))
  · rw [Int.floor_lt]
    rw [div_lt_iff₀ hspan]
    exact_mod_cast hxn

theorem rndHalfEven_err (x : ℚ) : |((rndHalfEven x : ℚ)) - x| ≤ 1/2 := by
  have hfl := Int.floor_le x
  have hflu := Int.lt_floor_add_one x
  rw [rndHalfEven]
  split_ifs with h1 h2 h3 <;> rw [abs_le] <;> constructor <;> push_cast <;> linarith

theorem pyround2_err (x : ℚ) : |pyround2 x - x| ≤ 1/200 := by
  have h := rndHalfEven_err (x * 100)
  have heq : pyround2 x - x = (((rndHalfEven (x * 100) : ℚ)) - x * 100) / 100 := by
    unfold pyround2; ring
  rw [heq, abs_div]
  have h100 : |(100 : ℚ)| = 100 := by norm_num
  rw [h100]
  linarith [h]

/-! ## rashi.py — zodiac signs -/

/-- Rashis in Sanskrit (source list `RASHIS`). -/
def RASHIS : List String :=
  ["Mesha", "Vrishabha", "Mithuna", "Karka", "Simha", "Kanya",
   "Tula", "Vrischika", "Dhanu", "Makara", "Kumbha", "Meena"]

/-- `get_rashi` from `rashi.py`: normalize the longitude into `[0,360)`,
then index, Sanskrit name and degree within the 30° sign. -/
def get_rashi (sidereal_longitude : ℚ) : ℤ × String × ℚ :=
  let longitude := pymod sidereal_longitude 360
  let rashi_index := pyint (longitude / 30)
  (rashi_index, RASHIS.getD rashi_index.toNat "", pymod longitude 30)

/-! ## nakshatra.py — lunar mansions -/

/-- The 27 nakshatras with their Vimshottari dasha lords (source list
`NAKSHATRAS`). -/
def NAKSHATRAS : List (String × String) :=
  [("Ashwini", "Ketu"), ("Bharani", "Venus"), ("Krittika", "Sun"),
   ("Rohini", "Moon"), ("Mrigashira", "Mars"), ("Ardra", "Rahu"),
   ("Punarvasu", "Jupiter"), ("Pushya", "Saturn"), ("Ashlesha", "Mercury"),
   ("Magha", "Ketu"), ("Purva Phalguni", "Venus"), ("Uttara Phalguni", "Sun"),
   ("Hasta", "Moon"), ("Chitra", "Mars"), ("Swati", "Rahu"),
   ("Vishakha", "Jupiter"), ("Anuradha", "Saturn"), ("Jyeshtha", "Mercury"),
   ("Mula", "Ketu"), ("Purva Ashadha", "Venus"), ("Uttara Ashadha", "Sun"),
   ("Shravana", "Moon"), ("Dhanishta", "Mars"), ("Shatabhisha", "Rahu"),
   ("Purva Bhadrapada", "Jupiter"), ("Uttara Bhadrapada", "Saturn"),
   ("Revati", "Mercury")]

/-- Nakshatra span in degrees: `360 / 27`. -/
def NAKSHATRA_SPAN : ℚ := 360 / 27

/-- Pada span in degrees: a quarter of a nakshatra. -/
def PADA_SPAN : ℚ := NAKSHATRA_SPAN / 4

/-- Result of `get_nakshatra`.  The decorative attribute tables of the
source (deity, symbol, gana) are static string lookups by the same index
and are not modelled; no claim mentions them. -/
structure NakshatraInfo where
  index : ℤ
  name : String
  lord : String
  pada : ℤ
  degree : ℚ
deriving Repr

/-- `get_nakshatra` from `nakshatra.py`. -/
def get_nakshatra (sidereal_longitude : ℚ) : NakshatraInfo :=
  let longitude := pymod sidereal_longitude 360
  let nak_index := min (pyint (longitude / NAKSHATRA_SPAN)) 26
  let nak_degree := pymod longitude NAKSHATRA_SPAN
  let pada := min (pyint (nak_degree / PADA_SPAN) + 1) 4
  { index := nak_index,
    name := (NAKSHATRAS.getD nak_index.toNat ("", "")).1,
    lord := (NAKSHATRAS.getD nak_index.toNat ("", "")).2,
    pada := pada,
    degree := nak_degree }

/-! ## dasha.py — Vimshottari dasha system -/

/-- Vimshottari dasha periods in years (source dict `DASHA_YEARS`,
defaulting to 0 for a body outside the table). -/
def DASHA_YEARS : String → ℚ
  | "Ketu" => 7
  | "Venus" => 20
  | "Sun" => 6
  | "Moon" => 10
  | "Mars" => 7
  | "Rahu" => 18
  | "Jupiter" => 16
  | "Saturn" => 19
  | "Mercury" => 17
  | _ => 0

/-- Fixed dasha order starting from Ketu (source list `DASHA_SEQUENCE`). -/
def DASHA_SEQUENCE : List String :=
  ["Ketu", "Venus", "Sun", "Moon", "Mars", "Rahu", "Jupiter", "Saturn", "Mercury"]

/-- Total dasha cycle length in years. -/
def TOTAL_DASHA_YEARS : ℚ := 120

/-- Days per year used throughout `dasha.py`. -/
def DAYS_PER_YEAR : ℚ := 365.25

/-- `DashaPeriodInfo` dataclass.  The source field `end` is `endDate`
here (`end` is reserved); instants are rational day counts. -/
structure DashaPeriodInfo where
  lord : String
  start : ℚ
  endDate : ℚ
  years : ℚ
  days : ℚ
  is_birth_dasha : Bool := false
deriving Repr, Inhabited

/-- `AntardashaPeriodInfo` dataclass. -/
structure AntardashaPeriodInfo where
  lord : String
  start : ℚ
  endDate : ℚ
  days : ℚ
  mahadasha_lord : String
deriving Repr, Inhabited

/-- `PratyantardashaPeriodInfo` dataclass. -/
structure PratyantardashaPeriodInfo where
  lord : String
  start : ℚ
  endDate : ℚ
  days : ℚ
  mahadasha_lord : String
  antardasha_lord : String
deriving Repr, Inhabited

/-- Return value of `VimshottariDasha.calculate_dasha_balance`. -/
structure DashaBalance where
  lord : String
  total_years : ℚ
  elapsed_fraction : ℚ
  elapsed_years : ℚ
  remaining_years : ℚ
  remaining_days : ℚ
  end_date : ℚ
deriving Repr

namespace VimshottariDasha

/-- `get_birth_dasha_lord`: the mahadasha lord at birth from the Moon's
nakshatra. -/
def get_birth_dasha_lord (moon_longitude : ℚ) : String :=
  (get_nakshatra moon_longitude).lord

/-- `get_elapsed_dasha_portion`: fraction of the birth dasha elapsed. -/
def get_elapsed_dasha_portion (moon_longitude : ℚ) : ℚ :=
  (get_nakshatra moon_longitude).degree / NAKSHATRA_SPAN

/-- `calculate_dasha_balance`: remaining dasha period at birth. -/
def calculate_dasha_balance (moon_longitude birth_dt : ℚ) : DashaBalance :=
  let birth_lord := get_birth_dasha_lord moon_longitude
  let total_years := DASHA_YEARS birth_lord
  let elapsed_fraction := get_elapsed_dasha_portion moon_longitude
  let remaining_years := total_years * (1 - elapsed_fraction)
  let remaining_days := remaining_years * DAYS_PER_YEAR
  { lord := birth_lord,
    total_years := total_years,
    elapsed_fraction := elapsed_fraction,
    elapsed_years := total_years * elapsed_fraction,
    remaining_years := remaining_years,
    remaining_days := remaining_days,
    end_date := birth_dt + remaining_days }

/-- The `while current_date < max_date` loop of
`generate_mahadasha_timeline`, generating full-length dashas after the
partial birth dasha.  Terminates because every dasha appended is at
least 6 years = 2191.5 days long. -/
def mahadasha_loop (start_idx : ℕ) (max_date current_date : ℚ) (cycle : ℕ) :
    List DashaPeriodInfo :=
  if h : current_date < max_date then
    let lord := DASHA_SEQUENCE.getD ((start_idx + cycle) % 9) ""
    let years := DASHA_YEARS lord
    let days := years * DAYS_PER_YEAR
    { lord := lord, start := current_date, endDate := current_date + days,
      years := years, days := days, is_birth_dasha := false }
      :: mahadasha_loop start_idx max_date (current_date + days) (cycle + 1)
  else []
termination_by (⌈max_date - current_date⌉).toNat
decreasing_by
  have hidx : (start_idx + cycle) % 9 < 9 := Nat.mod_lt _ (by norm_num)
  have hone : (1 : ℚ) ≤ DASHA_YEARS (DASHA_SEQUENCE.getD ((start_idx + cycle) % 9) "") * DAYS_PER_YEAR := by
    interval_cases _h9 : (start_idx + cycle) % 9 <;>
      norm_num [DASHA_SEQUENCE, DASHA_YEARS, DAYS_PER_YEAR]
  have hceil1 : ⌈max_date - (current_date + DASHA_YEARS (DASHA_SEQUENCE.getD ((start_idx + cycle) % 9) "") * DAYS_PER_YEAR)⌉ ≤ ⌈max_date - current_date - 1⌉ := by
    apply Int.ceil_le_ceil
    linarith
  have hceil2 : ⌈max_date - current_date - (1 : ℚ)⌉ = ⌈max_date - current_date⌉ - 1 := by
    exact_mod_cast Int.ceil_sub_int (max_date - current_date) 1
  have hpos : 0 < ⌈max_date - current_date⌉ := Int.ceil_pos.mpr (by linarith)
  omega

/-- `generate_mahadasha_timeline`.  The source computes
`max_date = birth + relativedelta(years=years_ahead)` with
calendar-aware arithmetic; the horizon instant is taken here as an
explicit parameter `max_date`, everything after it is as in the source. -/
def generate_mahadasha_timeline (moon_longitude birth_dt max_date : ℚ) :
    List DashaPeriodInfo :=
  let balance := calculate_dasha_balance moon_longitude birth_dt
  let first_dasha : DashaPeriodInfo :=
    { lord := balance.lord, start := birth_dt, endDate := balance.end_date,
      years := balance.remaining_years, days := balance.remaining_days,
      is_birth_dasha := true }
  let start_idx := DASHA_SEQUENCE.indexOf balance.lord
  first_dasha :: mahadasha_loop start_idx max_date balance.end_date 1

/-- The `for i in range(9)` loop of `calculate_antardasha`, with the
running `current_date` threaded through. -/
def antardasha_go (md_lord : String) (md_years : ℚ) (start_idx : ℕ) :
    ℚ → List ℕ → List AntardashaPeriodInfo
  | _, [] => []
  | current_date, i :: rest =>
    let ad_lord := DASHA_SEQUENCE.getD ((start_idx + i) % 9) ""
    let ad_base_years := DASHA_YEARS ad_lord
    let ad_days := md_years * ad_base_years * DAYS_PER_YEAR / TOTAL_DASHA_YEARS
    { lord := ad_lord, start := current_date, endDate := current_date + ad_days,
      days := ad_days, mahadasha_lord := md_lord }
      :: antardasha_go md_lord md_years start_idx (current_date + ad_days) rest

/-- `calculate_antardasha`: the 9 sub-periods of a mahadasha. -/
def calculate_antardasha (mahadasha : DashaPeriodInfo) : List AntardashaPeriodInfo :=
  antardasha_go mahadasha.lord mahadasha.years
    (DASHA_SEQUENCE.indexOf mahadasha.lord) mahadasha.start (List.range 9)

/-- The `for i in range(9)` loop of `calculate_pratyantardasha`. -/
def pratyantardasha_go (md_lord ad_lord : String) (ad_days : ℚ) (start_idx : ℕ) :
    ℚ → List ℕ → List PratyantardashaPeriodInfo
  | _, [] => []
  | current_date, i :: rest =>
    let pd_lord := DASHA_SEQUENCE.getD ((start_idx + i) % 9) ""
    let pd_base_years := DASHA_YEARS pd_lord
    let pd_days := ad_days * pd_base_years / TOTAL_DASHA_YEARS
    { lord := pd_lord, start := current_date, endDate := current_date + pd_days,
      days := pd_days, mahadasha_lord := md_lord, antardasha_lord := ad_lord }
      :: pratyantardasha_go md_lord ad_lord ad_days start_idx (current_date + pd_days) rest

/-- `calculate_pratyantardasha`: the 9 sub-sub-periods of an antardasha. -/
def calculate_pratyantardasha (antardasha : AntardashaPeriodInfo) :
    List PratyantardashaPeriodInfo :=
  pratyantardasha_go antardasha.mahadasha_lord antardasha.lord antardasha.days
    (DASHA_SEQUENCE.indexOf antardasha.lord) antardasha.start (List.range 9)

end VimshottariDasha

/-! ## divisional.py — divisional (varga) charts -/

/-- `DivisionalPosition` dataclass: position in a divisional chart. -/
structure DivisionalPosition where
  longitude : ℚ
  rashi : ℤ
  degree : ℚ
deriving Repr

namespace DivisionalCharts

/-- Fire signs: Aries, Leo, Sagittarius. -/
def FIRE_SIGNS : List ℤ := [0, 4, 8]

/-- Earth signs: Taurus, Virgo, Capricorn. -/
def EARTH_SIGNS : List ℤ := [1, 5, 9]

/-- Air signs: Gemini, Libra, Aquarius. -/
def AIR_SIGNS : List ℤ := [2, 6, 10]

/-- Water signs: Cancer, Scorpio, Pisces. -/
def WATER_SIGNS : List ℤ := [3, 7, 11]

/-- `get_rashi` method: rashi index from a longitude. -/
def get_rashi (longitude : ℚ) : ℤ := pyint (pymod longitude 360 / 30)

/-- `get_degree_in_rashi` method: degree within the rashi. -/
def get_degree_in_rashi (longitude : ℚ) : ℚ := pymod (pymod longitude 360) 30

/-- D-1 rashi chart (`calculate_d1`). -/
def calculate_d1 (longitude : ℚ) : DivisionalPosition :=
  { longitude := longitude, rashi := get_rashi longitude,
    degree := get_degree_in_rashi longitude }

/-- D-2 hora chart (`calculate_hora`).  `rashi % 2 = 0` is the source's
`is_odd_sign` (0-indexed odd signs). -/
def calculate_hora (longitude : ℚ) : DivisionalPosition :=
  let rashi := get_rashi longitude
  let degree := get_degree_in_rashi longitude
  let hora_rashi : ℤ :=
    if degree < 15 then (if rashi % 2 = 0 then 4 else 3)
    else (if rashi % 2 = 0 then 3 else 4)
  let hora_degree := pymod degree 15 * 2
  { longitude := hora_rashi * 30 + hora_degree, rashi := hora_rashi,
    degree := hora_degree }

/-- D-3 drekkana chart (`calculate_drekkana`). -/
def calculate_drekkana (longitude : ℚ) : DivisionalPosition :=
  let rashi := get_rashi longitude
  let degree := get_degree_in_rashi longitude
  let drekkana_rashi :=
    if degree < 10 then rashi
    else if degree < 20 then (rashi + 4) % 12
    else (rashi + 8) % 12
  let drekkana_degree := pymod degree 10 * 3
  { longitude := drekkana_rashi * 30 + drekkana_degree, rashi := drekkana_rashi,
    degree := drekkana_degree }

/-- D-4 chaturthamsa chart (`calculate_chaturthamsa`). -/
def calculate_chaturthamsa (longitude : ℚ) : DivisionalPosition :=
  let rashi := get_rashi longitude
  let degree := get_degree_in_rashi longitude
  let division := pyint (degree / 7.5)
  let start_rashi := if rashi % 2 = 0 then rashi else (rashi + 3) % 12
  let d4_rashi := (start_rashi + division) % 12
  let d4_degree := pymod degree 7.5 * 4
  { longitude := d4_rashi * 30 + d4_degree, rashi := d4_rashi, degree := d4_degree }

/-- D-7 saptamsa chart (`calculate_saptamsa`). -/
def calculate_saptamsa (longitude : ℚ) : DivisionalPosition :=
  let rashi := get_rashi longitude
  let degree := get_degree_in_rashi longitude
  let division_span : ℚ := 30 / 7
  let division := pyint (degree / division_span)
  let start_rashi := if rashi % 2 = 0 then rashi else (rashi + 6) % 12
  let d7_rashi := (start_rashi + division) % 12
  let d7_degree := pymod degree division_span * (30 / division_span)
  { longitude := d7_rashi * 30 + d7_degree, rashi := d7_rashi, degree := d7_degree }

/-- D-9 navamsa chart (`calculate_navamsa`): starting sign keyed by the
element of the original sign. -/
def calculate_navamsa (longitude : ℚ) : DivisionalPosition :=
  let rashi := get_rashi longitude
  let degree := get_degree_in_rashi longitude
  let navamsa_span : ℚ := 30 / 9
  let division := pyint (degree / navamsa_span)
  let start_rashi : ℤ :=
    if rashi ∈ FIRE_SIGNS then 0
    else if rashi ∈ EARTH_SIGNS then 9
    else if rashi ∈ AIR_SIGNS then 6
    else 3
  let navamsa_rashi := (start_rashi + division) % 12
  let navamsa_degree := pymod degree navamsa_span * 9
  { longitude := navamsa_rashi * 30 + navamsa_degree, rashi := navamsa_rashi,
    degree := navamsa_degree }

/-- D-10 dasamsa chart (`calculate_dasamsa`). -/
def calculate_dasamsa (longitude : ℚ) : DivisionalPosition :=
  let rashi := get_rashi longitude
  let degree := get_degree_in_rashi longitude
  let division := pyint (degree / 3)
  let start_rashi := if rashi % 2 = 0 then rashi else (rashi + 8) % 12
  let d10_rashi := (start_rashi + division) % 12
  let d10_degree := pymod degree 3 * 10
  { longitude := d10_rashi * 30 + d10_degree, rashi := d10_rashi, degree := d10_degree }

/-- D-12 dwadasamsa chart (`calculate_dwadasamsa`). -/
def calculate_dwadasamsa (longitude : ℚ) : DivisionalPosition :=
  let rashi := get_rashi longitude
  let degree := get_degree_in_rashi longitude
  let division := pyint (degree / 2.5)
  let d12_rashi := (rashi + division) % 12
  let d12_degree := pymod degree 2.5 * 12
  { longitude := d12_rashi * 30 + d12_degree, rashi := d12_rashi, degree := d12_degree }

/-- D-16 shodasamsa chart (`calculate_shodasamsa`): starting sign keyed
by modality. -/
def calculate_shodasamsa (longitude : ℚ) : DivisionalPosition :=
  let rashi := get_rashi longitude
  let degree := get_degree_in_rashi longitude
  let division_span : ℚ := 30 / 16
  let division := pyint (degree / division_span)
  let start_rashi : ℤ :=
    if rashi ∈ ([0, 3, 6, 9] : List ℤ) then 0
    else if rashi ∈ ([1, 4, 7, 10] : List ℤ) then 4
    else 8
  let d16_rashi := (start_rashi + division) % 12
  let d16_degree := pymod degree division_span * 16
  { longitude := d16_rashi * 30 + d16_degree, rashi := d16_rashi, degree := d16_degree }

/-- D-20 vimsamsa chart (`calculate_vimsamsa`). -/
def calculate_vimsamsa (longitude : ℚ) : DivisionalPosition :=
  let rashi := get_rashi longitude
  let degree := get_degree_in_rashi longitude
  let division := pyint (degree / 1.5)
  let start_rashi : ℤ :=
    if rashi ∈ ([0, 3, 6, 9] : List ℤ) then 0
    else if rashi ∈ ([1, 4, 7, 10] : List ℤ) then 8
    else 4
  let d20_rashi := (start_rashi + division) % 12
  let d20_degree := pymod degree 1.5 * 20
  { longitude := d20_rashi * 30 + d20_degree, rashi := d20_rashi, degree := d20_degree }

/-- D-24 chaturvimsamsa chart (`calculate_chaturvimsamsa`). -/
def calculate_chaturvimsamsa (longitude : ℚ) : DivisionalPosition :=
  let rashi := get_rashi longitude
  let degree := get_degree_in_rashi longitude
  let division := pyint (degree / 1.25)
  let start_rashi : ℤ := if rashi % 2 = 0 then 4 else 3
  let d24_rashi := (start_rashi + division) % 12
  let d24_degree := pymod degree 1.25 * 24
  { longitude := d24_rashi * 30 + d24_degree, rashi := d24_rashi, degree := d24_degree }

/-- First match of the `for end_deg, sign in bounds ... break` loop of
`calculate_trimsamsa`; the result stays 0 when no band matches. -/
def trimsamsa_pick (degree : ℚ) : List (ℚ × ℤ) → ℤ
  | [] => 0
  | (end_deg, sign) :: rest =>
    if degree < end_deg then sign else trimsamsa_pick degree rest

/-- D-30 trimsamsa chart (`calculate_trimsamsa`): irregular degree bands
per sign parity. -/
def calculate_trimsamsa (longitude : ℚ) : DivisionalPosition :=
  let rashi := get_rashi longitude
  let degree := get_degree_in_rashi longitude
  let bounds : List (ℚ × ℤ) :=
    if rashi % 2 = 0 then [(5, 0), (10, 10), (18, 8), (25, 2), (30, 1)]
    else [(5, 1), (12, 2), (20, 8), (25, 10), (30, 0)]
  let d30_rashi := trimsamsa_pick degree bounds
  { longitude := d30_rashi * 30 + degree, rashi := d30_rashi, degree := degree }

/-- D-60 shashtiamsa chart (`calculate_shashtiamsa`). -/
def calculate_shashtiamsa (longitude : ℚ) : DivisionalPosition :=
  let rashi := get_rashi longitude
  let degree := get_degree_in_rashi longitude
  let division := pyint (degree / 0.5)
  let d60_rashi := (rashi + division) % 12
  let d60_degree := pymod degree 0.5 * 60
  { longitude := d60_rashi * 30 + d60_degree, rashi := d60_rashi, degree := d60_degree }

/-- `get_all_divisional_positions`: all 13 divisional chart positions. -/
def get_all_divisional_positions (longitude : ℚ) : List (String × DivisionalPosition) :=
  [("D1", calculate_d1 longitude),
   ("D2", calculate_hora longitude),
   ("D3", calculate_drekkana longitude),
   ("D4", calculate_chaturthamsa longitude),
   ("D7", calculate_saptamsa longitude),
   ("D9", calculate_navamsa longitude),
   ("D10", calculate_dasamsa longitude),
   ("D12", calculate_dwadasamsa longitude),
   ("D16", calculate_shodasamsa longitude),
   ("D20", calculate_vimsamsa longitude),
   ("D24", calculate_chaturvimsamsa longitude),
   ("D30", calculate_trimsamsa longitude),
   ("D60", calculate_shashtiamsa longitude)]

/-- `is_vargottama`: same sign in D-1 and D-9. -/
def is_vargottama (longitude : ℚ) : Bool :=
  (calculate_d1 longitude).rashi == (calculate_navamsa longitude).rashi

end DivisionalCharts

/-! ## shadbala.py — six-fold planetary strength -/

/-- `ShadbalaResult` dataclass. -/
structure ShadbalaResult where
  planet : String
  sthana_bala : ℚ
  dig_bala : ℚ
  kala_bala : ℚ
  chesta_bala : ℚ
  naisargika_bala : ℚ
  drik_bala : ℚ
  total_shadbala : ℚ
  required_strength : ℚ
  is_strong : Bool
deriving Repr

namespace Shadbala

/-- Exaltation degrees (source dict `EXALTATION_DEGREES`; `none` for a
body outside the table). -/
def EXALTATION_DEGREES : String → Option ℚ
  | "SUN" => some 10
  | "MOON" => some 33
  | "MARS" => some 298
  | "MERCURY" => some 165
  | "JUPITER" => some 95
  | "VENUS" => some 357
  | "SATURN" => some 200
  | _ => none

/-- Debilitation degrees: `(exaltation + 180) % 360`. -/
def DEBILITATION_DEGREES (planet : String) : Option ℚ :=
  (EXALTATION_DEGREES planet).map (fun v => pymod (v + 180) 360)

/-- Own signs (source dict `OWN_SIGNS`). -/
def OWN_SIGNS : String → Option (List ℤ)
  | "SUN" => some [4]
  | "MOON" => some [3]
  | "MARS" => some [0, 7]
  | "MERCURY" => some [2, 5]
  | "JUPITER" => some [8, 11]
  | "VENUS" => some [1, 6]
  | "SATURN" => some [9, 10]
  | _ => none

/-- Natural strength in virupas (source dict `NATURAL_STRENGTH`, read with
default 0). -/
def NATURAL_STRENGTH : String → ℚ
  | "SUN" => 60
  | "MOON" => 51.43
  | "VENUS" => 42.85
  | "JUPITER" => 34.28
  | "MERCURY" => 25.71
  | "MARS" => 17.14
  | "SATURN" => 8.57
  | _ => 0

/-- Minimum required shadbala in rupas (source dict `MINIMUM_SHADBALA`,
read with default 5.0). -/
def MINIMUM_SHADBALA : String → ℚ
  | "SUN" => 6.5
  | "MOON" => 6
  | "MARS" => 5
  | "MERCURY" => 7
  | "JUPITER" => 6.5
  | "VENUS" => 5.5
  | "SATURN" => 5
  | _ => 5

/-- Houses of maximal directional strength (source dict
`DIG_BALA_POSITIONS`). -/
def DIG_BALA_POSITIONS : String → Option ℤ
  | "SUN" => some 10
  | "MARS" => some 10
  | "JUPITER" => some 1
  | "MERCURY" => some 1
  | "MOON" => some 4
  | "VENUS" => some 4
  | "SATURN" => some 7
  | _ => none

/-- `_get_house` method: house number 1-12 of a rashi from the
ascendant. -/
def get_house (ascendant_rashi planet_rashi : ℤ) : ℤ :=
  (planet_rashi - ascendant_rashi) % 12 + 1

/-- `calculate_uccha_bala`: exaltation strength, linear in the distance
from the debilitation point. -/
def calculate_uccha_bala (planet : String) (longitude : ℚ) : ℚ :=
  match DEBILITATION_DEGREES planet with
  | none => 0
  | some debil_deg =>
    let distance := |longitude - debil_deg|
    let distance := if 180 < distance then 360 - distance else distance
    distance / 180 * 60

/-- `_get_dignity` method: a planet's dignity in a sign. -/
def get_dignity (planet : String) (rashi : ℤ) : String :=
  match OWN_SIGNS planet with
  | none => "neutral"
  | some own =>
    match EXALTATION_DEGREES planet with
    | some exalt_deg =>
      if rashi = pyint (exalt_deg / 30) then "exalted"
      else if rashi = pyint (pymod (exalt_deg + 180) 360 / 30) then "debilitated"
      else if rashi ∈ own then "own"
      else "neutral"
    | none =>
      if rashi ∈ own then "own" else "neutral"

/-- `calculate_saptavargaja_bala`: average dignity points over the seven
divisional charts present in `varga_positions` (a chart-code keyed dict
of which only the `rashi` field is read). -/
def calculate_saptavargaja_bala (planet : String)
    (varga_positions : String → Option ℤ) : ℚ :=
  let charts := ["D1", "D2", "D3", "D7", "D9", "D12", "D30"]
  (charts.map (fun varga =>
    match varga_positions varga with
    | none => 0
    | some varga_rashi =>
      match get_dignity planet varga_rashi with
      | "exalted" => (30 : ℚ)
      | "moolatrikona" => 22.5
      | "own" => 20
      | "friend" => 15
      | "neutral" => 10
      | "enemy" => 3.75
      | _ => 0)).sum / 7

/-- `calculate_ojhayugma_bala`: odd/even sign strength. -/
def calculate_ojhayugma_bala (planet : String) (rashi : ℤ) : ℚ :=
  if planet ∈ (["MOON", "VENUS"] : List String) then
    if ¬(rashi % 2 = 0) then 15 else 0
  else
    if rashi % 2 = 0 then 15 else 0

/-- `calculate_kendradi_bala`: angular strength by house category. -/
def calculate_kendradi_bala (ascendant_rashi : ℤ) (rashi : ℤ) : ℚ :=
  let house := get_house ascendant_rashi rashi
  if house ∈ ([1, 4, 7, 10] : List ℤ) then 60
  else if house ∈ ([2, 5, 8, 11] : List ℤ) then 30
  else 15

/-- `calculate_drekkana_bala`: decanate strength by planet gender. -/
def calculate_drekkana_bala (planet : String) (degree : ℚ) : ℚ :=
  let deg_in_sign := pymod degree 30
  let drekkana : ℕ := if deg_in_sign < 10 then 1 else if deg_in_sign < 20 then 2 else 3
  if planet ∈ (["SUN", "MARS", "JUPITER"] : List String) ∧ drekkana = 1 then 15
  else if planet ∈ (["MERCURY", "SATURN"] : List String) ∧ drekkana = 2 then 15
  else if planet ∈ (["MOON", "VENUS"] : List String) ∧ drekkana = 3 then 15
  else 0

/-- `calculate_sthana_bala`: positional strength, sum of five
sub-components in virupas, converted to rupas. -/
def calculate_sthana_bala (ascendant_rashi : ℤ) (planet : String) (longitude : ℚ)
    (varga_positions : String → Option ℤ) : ℚ :=
  let rashi := pyint (longitude / 30)
  let degree := pymod longitude 30
  let uccha := calculate_uccha_bala planet longitude
  let saptavarga := calculate_saptavargaja_bala planet varga_positions
  let ojha := calculate_ojhayugma_bala planet rashi
  let kendra := calculate_kendradi_bala ascendant_rashi rashi
  let drekkana := calculate_drekkana_bala planet degree
  (uccha + saptavarga + ojha + kendra + drekkana) / 60

/-- `calculate_dig_bala`: directional strength. -/
def calculate_dig_bala (ascendant_rashi : ℤ) (planet : String) (rashi : ℤ) : ℚ :=
  match DIG_BALA_POSITIONS planet with
  | none => 0
  | some strong_house =>
    let weak_house := (strong_house - 1 + 6) % 12 + 1
    let current_house := get_house ascendant_rashi rashi
    let distance := |current_house - weak_house|
    let distance := if 6 < distance then 12 - distance else distance
    (distance : ℚ) / 6 * 60 / 60

/-- `calculate_kala_bala`: temporal strength from day/night birth. -/
def calculate_kala_bala (is_day_birth : Bool) (planet : String) : ℚ :=
  (if planet ∈ (["SUN", "JUPITER", "VENUS"] : List String) then
    if is_day_birth then (60 : ℚ) else 0
  else if planet ∈ (["MOON", "MARS", "SATURN"] : List String) then
    if is_day_birth then 0 else 60
  else 30) / 60

/-- `calculate_chesta_bala`: motional strength from longitude speed. -/
def calculate_chesta_bala (planet : String) (speed : ℚ) : ℚ :=
  if planet ∈ (["SUN", "MOON"] : List String) then 0.5
  else (if speed < 0 then (60 : ℚ) else if speed = 0 then 30 else 15) / 60

/-- `calculate_naisargika_bala`: natural strength. -/
def calculate_naisargika_bala (planet : String) : ℚ :=
  NATURAL_STRENGTH planet / 60

/-- `calculate_drik_bala`: aspectual strength.  An aspect dict is read
only through its `planet` entry, so an aspect is modelled as that
name. -/
def calculate_drik_bala (aspects : List String) : ℚ :=
  let benefics : List String := ["JUPITER", "VENUS", "MERCURY", "MOON"]
  let malefics : List String := ["SATURN", "MARS", "SUN", "RAHU", "KETU"]
  let total := aspects.foldl (fun acc aspecting_planet =>
    if aspecting_planet ∈ benefics then acc + 15
    else if aspecting_planet ∈ malefics then acc - 15
    else acc) 0
  max 0 (total + 30) / 60

/-- `calculate_shadbala`: the complete six-fold strength of a planet.
The six components and their sum are rounded to two decimals in the
returned record; `is_strong` compares the unrounded total. -/
def calculate_shadbala (ascendant_rashi : ℤ) (is_day_birth : Bool)
    (planet : String) (longitude speed : ℚ)
    (varga_positions : String → Option ℤ) (aspects : List String) :
    ShadbalaResult :=
  let rashi := pyint (longitude / 30)
  let sthana := calculate_sthana_bala ascendant_rashi planet longitude varga_positions
  let dig := calculate_dig_bala ascendant_rashi planet rashi
  let kala := calculate_kala_bala is_day_birth planet
  let chesta := calculate_chesta_bala planet speed
  let naisargika := calculate_naisargika_bala planet
  let drik := calculate_drik_bala aspects
  let total := sthana + dig + kala + chesta + naisargika + drik
  let required := MINIMUM_SHADBALA planet
  { planet := planet,
    sthana_bala := pyround2 sthana,
    dig_bala := pyround2 dig,
    kala_bala := pyround2 kala,
    chesta_bala := pyround2 chesta,
    naisargika_bala := pyround2 naisargika,
    drik_bala := pyround2 drik,
    total_shadbala := pyround2 total,
    required_strength := required,
    is_strong := decide (required ≤ total) }

end Shadbala

/-! ## ashtakavarga.py — benefic-point profiles -/

/-- `BhinnashtakavargaResult` dataclass. -/
structure BhinnashtakavargaResult where
  planet : String
  bindus : List ℕ
  total_bindus : ℕ
deriving Repr

/-- `SarvashtakavargaResult` dataclass (the `bhinnas` field, a redundant
copy of the seven per-planet results, is not modelled). -/
structure SarvashtakavargaResult where
  bindus : List ℕ
  total_bindus : ℕ
deriving Repr

namespace Ashtakavarga

/-- Benefic-house tables (source dict `ASHTAKAVARGA_TABLES`), as ordered
association lists mirroring the Python dict insertion order. -/
def ASHTAKAVARGA_TABLES : String → Option (List (String × List ℤ))
  | "SUN" => some
      [("SUN", [1, 2, 4, 7, 8, 9, 10, 11]),
       ("MOON", [3, 6, 10, 11]),
       ("MARS", [1, 2, 4, 7, 8, 9, 10, 11]),
       ("MERCURY", [3, 5, 6, 9, 10, 11, 12]),
       ("JUPITER", [5, 6, 9, 11]),
       ("VENUS", [6, 7, 12]),
       ("SATURN", [1, 2, 4, 7, 8, 9, 10, 11]),
       ("ASCENDANT", [3, 4, 6, 10, 11, 12])]
  | "MOON" => some
      [("SUN", [3, 6, 7, 8, 10, 11]),
       ("MOON", [1, 3, 6, 7, 10, 11]),
       ("MARS", [2, 3, 5, 6, 9, 10, 11]),
       ("MERCURY", [1, 3, 4, 5, 7, 8, 10, 11]),
       ("JUPITER", [1, 4, 7, 8, 10, 11, 12]),
       ("VENUS", [3, 4, 5, 7, 9, 10, 11]),
       ("SATURN", [3, 5, 6, 11]),
       ("ASCENDANT", [3, 6, 10, 11])]
  | "MARS" => some
      [("SUN", [3, 5, 6, 10, 11]),
       ("MOON", [3, 6, 11]),
       ("MARS", [1, 2, 4, 7, 8, 10, 11]),
       ("MERCURY", [3, 5, 6, 11]),
       ("JUPITER", [6, 10, 11, 12]),
       ("VENUS", [6, 8, 11, 12]),
       ("SATURN", [1, 4, 7, 8, 9, 10, 11]),
       ("ASCENDANT", [1, 3, 6, 10, 11])]
  | "MERCURY" => some
      [("SUN", [5, 6, 9, 11, 12]),
       ("MOON", [2, 4, 6, 8, 10, 11]),
       ("MARS", [1, 2, 4, 7, 8, 9, 10, 11]),
       ("MERCURY", [1, 3, 5, 6, 9, 10, 11, 12]),
       ("JUPITER", [6, 8, 11, 12]),
       ("VENUS", [1, 2, 3, 4, 5, 8, 9, 11]),
       ("SATURN", [1, 2, 4, 7, 8, 9, 10, 11]),
       ("ASCENDANT", [1, 2, 4, 6, 8, 10, 11])]
  | "JUPITER" => some
      [("SUN", [1, 2, 3, 4, 7, 8, 9, 10, 11]),
       ("MOON", [2, 5, 7, 9, 11]),
       ("MARS", [1, 2, 4, 7, 8, 10, 11]),
       ("MERCURY", [1, 2, 4, 5, 6, 9, 10, 11]),
       ("JUPITER", [1, 2, 3, 4, 7, 8, 10, 11]),
       ("VENUS", [2, 5, 6, 9, 10, 11]),
       ("SATURN", [3, 5, 6, 12]),
       ("ASCENDANT", [1, 2, 4, 5, 6, 7, 9, 10, 11])]
  | "VENUS" => some
      [("SUN", [8, 11, 12]),
       ("MOON", [1, 2, 3, 4, 5, 8, 9, 11, 12]),
       ("MARS", [3, 5, 6, 9, 11, 12]),
       ("MERCURY", [3, 5, 6, 9, 11]),
       ("JUPITER", [5, 8, 9, 10, 11]),
       ("VENUS", [1, 2, 3, 4, 5, 8, 9, 10, 11]),
       ("SATURN", [3, 4, 5, 8, 9, 10, 11]),
       ("ASCENDANT", [1, 2, 3, 4, 5, 8, 9, 11])]
  | "SATURN" => some
      [("SUN", [1, 2, 4, 7, 8, 10, 11]),
       ("MOON", [3, 6, 11]),
       ("MARS", [3, 5, 6, 10, 11, 12]),
       ("MERCURY", [6, 8, 9, 10, 11, 12]),
       ("JUPITER", [5, 6, 11, 12]),
       ("VENUS", [6, 11, 12]),
       ("SATURN", [3, 5, 6, 11]),
       ("ASCENDANT", [1, 3, 4, 6, 10, 11])]
  | _ => none

/-- The rashi a source contributes from: the ascendant's rashi for the
`ASCENDANT` pseudo-source, otherwise `positions.get(source, 0)`. -/
def source_rashi (positions : String → Option ℤ) (ascendant_rashi : ℤ)
    (source : String) : ℤ :=
  if source = "ASCENDANT" then ascendant_rashi else (positions source).getD 0

/-- `bindus[idx] += 1` on a 12-slot list (out-of-range indices never
occur: the index is a nonnegative `% 12` residue). -/
def bump (b : List ℕ) (idx : ℕ) : List ℕ := b.set idx (b.getD idx 0 + 1)

/-- The inner `for house in benefic_houses` loop of
`calculate_bhinnashtaka`: one bindu at `(source_rashi + house - 1) % 12`
per benefic house. -/
def add_source_bindus (src_rashi : ℤ) : List ℤ → List ℕ → List ℕ
  | [], b => b
  | house :: rest, b =>
    add_source_bindus src_rashi rest (bump b ((src_rashi + house - 1) % 12).toNat)

/-- The outer `for source, benefic_houses in planet_table.items()` loop
of `calculate_bhinnashtaka`, over the table in dict order. -/
def add_all_sources (positions : String → Option ℤ) (ascendant_rashi : ℤ) :
    List (String × List ℤ) → List ℕ → List ℕ
  | [], b => b
  | entry :: rest, b =>
    add_all_sources positions ascendant_rashi rest
      (add_source_bindus (source_rashi positions ascendant_rashi entry.1) entry.2 b)

/-- `calculate_bhinnashtaka`: individual ashtakavarga of a planet.  The
`positions` dict is a partial map from body name to rashi, read with
default 0. -/
def calculate_bhinnashtaka (positions : String → Option ℤ) (ascendant_rashi : ℤ)
    (planet : String) : BhinnashtakavargaResult :=
  match ASHTAKAVARGA_TABLES planet with
  | none => { planet := planet, bindus := List.replicate 12 0, total_bindus := 0 }
  | some planet_table =>
    let bindus := add_all_sources positions ascendant_rashi planet_table
      (List.replicate 12 0)
    { planet := planet, bindus := bindus, total_bindus := bindus.sum }

/-- The seven planets summed by `calculate_sarvashtaka`. -/
def SARVA_PLANETS : List String :=
  ["SUN", "MOON", "MARS", "MERCURY", "JUPITER", "VENUS", "SATURN"]

/-- The `for planet in planets` loop of `calculate_sarvashtaka`: the
element-wise `sarva_bindus[i] += bindu` accumulation. -/
def sum_bhinnas (positions : String → Option ℤ) (ascendant_rashi : ℤ) :
    List String → List ℕ → List ℕ
  | [], acc => acc
  | planet :: rest, acc =>
    sum_bhinnas positions ascendant_rashi rest
      (List.zipWith (· + ·) acc
        (calculate_bhinnashtaka positions ascendant_rashi planet).bindus)

/-- `calculate_sarvashtaka`: element-wise sum of the seven per-planet
profiles. -/
def calculate_sarvashtaka (positions : String → Option ℤ) (ascendant_rashi : ℤ) :
    SarvashtakavargaResult :=
  let sarva_bindus := sum_bhinnas positions ascendant_rashi SARVA_PLANETS
    (List.replicate 12 0)
  { bindus := sarva_bindus, total_bindus := sarva_bindus.sum }

/-- `trikona_reduction`: for each of the four triads of signs 120°
apart, subtract the triad minimum from all three members. -/
def trikona_reduction (bindus : List ℤ) : List ℤ :=
  (List.range 4).foldl (fun reduced start =>
    let h0 : ℕ := start
    let h1 : ℕ := (start + 4) % 12
    let h2 : ℕ := (start + 8) % 12
    let min_val := min (reduced.getD h0 0) (min (reduced.getD h1 0) (reduced.getD h2 0))
    let r0 := reduced.set h0 (reduced.getD h0 0 - min_val)
    let r1 := r0.set h1 (r0.getD h1 0 - min_val)
    r1.set h2 (r1.getD h2 0 - min_val)) bindus

end Ashtakavarga

/-! ## panchanga.py — tithi -/

/-- `TithiInfo` dataclass. -/
structure TithiInfo where
  number : ℤ
  name : String
  paksha : String
  lord : String
  remaining_degrees : ℚ
  is_purnima : Bool
  is_amavasya : Bool
deriving Repr

namespace Panchanga

/-- Tithi names, 15 per paksha (source list `TITHI_NAMES`). -/
def TITHI_NAMES : List String :=
  ["Pratipada", "Dwitiya", "Tritiya", "Chaturthi", "Panchami",
   "Shashthi", "Saptami", "Ashtami", "Navami", "Dashami",
   "Ekadashi", "Dwadashi", "Trayodashi", "Chaturdashi", "Purnima"]

/-- Tithi lords (source list `TITHI_LORDS`). -/
def TITHI_LORDS : List String :=
  ["Sun", "Moon", "Mars", "Mercury", "Jupiter",
   "Venus", "Saturn", "Rahu", "Sun", "Moon",
   "Mars", "Mercury", "Jupiter", "Venus", "Saturn"]

/-- `calculate_tithi`: the lunar day from the Sun and Moon longitudes. -/
def calculate_tithi (sun_longitude moon_longitude : ℚ) : TithiInfo :=
  let diff := pymod (moon_longitude - sun_longitude) 360
  let tithi_num := pyint (diff / 12) + 1
  let paksha := if tithi_num ≤ 15 then "Shukla" else "Krishna"
  let tithi_in_paksha := if tithi_num ≤ 15 then tithi_num else tithi_num - 15
  let name :=
    if tithi_num = 15 then "Purnima"
    else if tithi_num = 30 then "Amavasya"
    else TITHI_NAMES.getD ((tithi_in_paksha - 1) % 15).toNat ""
  let lord := TITHI_LORDS.getD ((tithi_num - 1) % 15).toNat ""
  { number := tithi_num,
    name := name,
    paksha := paksha,
    lord := lord,
    remaining_degrees := 12 - pymod diff 12,
    is_purnima := decide (tithi_num = 15),
    is_amavasya := decide (tithi_num = 30 ∨ tithi_num = 0) }

end Panchanga

/-! ## advanced_service.py — divisional chart endpoint -/

/-- One planet's entry in a divisional chart response. -/
structure DivisionalChartPlanet where
  rashi : ℤ
  rashi_name : String
  degree : ℚ
deriving Repr

/-- A divisional chart response. -/
structure DivisionalChartResult where
  division : String
  name : String
  description : String
  planets : List (String × DivisionalChartPlanet)
deriving Repr

namespace AdvancedChartService

/-- The `chart_names` dict of `get_divisional_chart`. -/
def chart_names : List (String × (String × String)) :=
  [("D1", ("Rashi", "Physical body, overall life")),
   ("D2", ("Hora", "Wealth, financial prosperity")),
   ("D3", ("Drekkana", "Siblings, courage, initiatives")),
   ("D4", ("Chaturthamsa", "Fortune, property")),
   ("D7", ("Saptamsa", "Children, progeny")),
   ("D9", ("Navamsa", "Spouse, dharma, spiritual life")),
   ("D10", ("Dasamsa", "Career, profession")),
   ("D12", ("Dwadasamsa", "Parents, ancestry")),
   ("D16", ("Shodasamsa", "Vehicles, comforts")),
   ("D20", ("Vimsamsa", "Spiritual progress")),
   ("D24", ("Chaturvimsamsa", "Education, learning")),
   ("D30", ("Trimsamsa", "Evils, misfortunes")),
   ("D60", ("Shashtiamsa", "Past life karma"))]

/-- The `method_map` dict of `get_divisional_chart`. -/
def method_map : List (String × (ℚ → DivisionalPosition)) :=
  [("D1", DivisionalCharts.calculate_d1),
   ("D2", DivisionalCharts.calculate_hora),
   ("D3", DivisionalCharts.calculate_drekkana),
   ("D4", DivisionalCharts.calculate_chaturthamsa),
   ("D7", DivisionalCharts.calculate_saptamsa),
   ("D9", DivisionalCharts.calculate_navamsa),
   ("D10", DivisionalCharts.calculate_dasamsa),
   ("D12", DivisionalCharts.calculate_dwadasamsa),
   ("D16", DivisionalCharts.calculate_shodasamsa),
   ("D20", DivisionalCharts.calculate_vimsamsa),
   ("D24", DivisionalCharts.calculate_chaturvimsamsa),
   ("D30", DivisionalCharts.calculate_trimsamsa),
   ("D60", DivisionalCharts.calculate_shashtiamsa)]

/-- The 13 recognized division codes. -/
def DIVISION_CODES : List String :=
  ["D1", "D2", "D3", "D4", "D7", "D9", "D10", "D12", "D16", "D20", "D24",
   "D30", "D60"]

/-- `get_divisional_chart`: reject an unrecognized division code with a
`ValueError`, otherwise remap every planet position through the chart's
method.  The planet positions (from the external ephemeris provider in
the source) are an input here; the response's extra `ascendant` field is
the `ASCENDANT` entry of the same `planets` map and is not repeated. -/
def get_divisional_chart (positions : List (String × ℚ)) (division : String) :
    Except String DivisionalChartResult :=
  match method_map.lookup division with
  | none => .error ("Unknown division: " ++ division)
  | some calc_method =>
    let nd := (chart_names.lookup division).getD ("", "")
    .ok { division := division,
          name := nd.1,
          description := nd.2,
          planets := positions.map (fun entry =>
            let div_pos := calc_method entry.2
            (entry.1,
             { rashi := div_pos.rashi,
               rashi_name := RASHIS.getD div_pos.rashi.toNat "",
               degree := pyround2 div_pos.degree })) }

end AdvancedChartService

/-! ## Theorems -/

theorem get_rashi_index_eq (L : ℚ) (h0 : 0 ≤ L) (h1 : L < 360) :
    (get_rashi L).1 = ⌊L / 30⌋ := by
  simp only [get_rashi]
  rw [pymod_eq_self h0 h1, pyint_of_nonneg (div_nonneg h0 (by norm_num))]

/-- C7: for every longitude `L`, classifying `L + 360` gives the same
result as classifying `L` (periodicity under a full circle); at the
exact boundary, longitude 30 classifies to sign index 1 while every
longitude in `[0, 30)` classifies to sign index 0. -/
theorem get_rashi_periodicity_and_boundary :
    (∀ L : ℚ, get_rashi (L + 360) = get_rashi L) ∧
    (get_rashi 30).1 = 1 ∧
    (∀ L : ℚ, 0 ≤ L → L < 30 → (get_rashi L).1 = 0) := by
  refine ⟨?_, ?_, ?_⟩
  · intro L
    simp only [get_rashi]
    rw [pymod_add_right L (by norm_num : (360 : ℚ) ≠ 0)]
  · norm_num [get_rashi, pymod, pyint, RASHIS]
  · intro L h0 h1
    rw [get_rashi_index_eq L h0 (by linarith)]
    rw [Int.floor_eq_zero_iff]
    constructor
    · exact div_nonneg h0 (by norm_num)
    · rw [div_lt_one (by norm_num)]; linarith

/-- C7 witness: the two boundary facts at the concrete inputs 29.999
and 30. -/
theorem get_rashi_boundary_witness :
    (0 : ℚ) ≤ 29999/1000 ∧ (29999/1000 : ℚ) < 30 ∧
      (get_rashi (29999/1000)).1 = 0 ∧ (get_rashi 30).1 = 1 :=
  ⟨by norm_num, by norm_num,
   get_rashi_periodicity_and_boundary.2.2 (29999/1000) (by norm_num) (by norm_num),
   get_rashi_periodicity_and_boundary.2.1⟩

/-- C8: the tithi number is `⌊((moon − sun) mod 360) / 12⌋ + 1` and lies
in 1..30, the paksha is Shukla exactly for numbers 1-15 and Krishna for
16-30, the name is overridden to Purnima at 15 and Amavasya at 30; and
`sun = 0, moon = 12` gives number 2 (Dwitiya, Shukla) while
`sun = 0, moon = 180` gives number 16, the first tithi of the Krishna
paksha. -/
theorem calculate_tithi_spec (s m : ℚ) :
    (Panchanga.calculate_tithi s m).number = ⌊pymod (m - s) 360 / 12⌋ + 1 ∧
    1 ≤ (Panchanga.calculate_tithi s m).number ∧
    (Panchanga.calculate_tithi s m).number ≤ 30 ∧
    ((Panchanga.calculate_tithi s m).paksha = "Shukla" ↔
      (Panchanga.calculate_tithi s m).number ≤ 15) ∧
    ((Panchanga.calculate_tithi s m).paksha = "Krishna" ↔
      16 ≤ (Panchanga.calculate_tithi s m).number) ∧
    ((Panchanga.calculate_tithi s m).number = 15 →
      (Panchanga.calculate_tithi s m).name = "Purnima") ∧
    ((Panchanga.calculate_tithi s m).number = 30 →
      (Panchanga.calculate_tithi s m).name = "Amavasya") ∧
    (Panchanga.calculate_tithi 0 12).number = 2 ∧
    (Panchanga.calculate_tithi 0 12).name = "Dwitiya" ∧
    (Panchanga.calculate_tithi 0 12).paksha = "Shukla" ∧
    (Panchanga.calculate_tithi 0 180).number = 16 ∧
    (Panchanga.calculate_tithi 0 180).paksha = "Krishna" ∧
    (Panchanga.calculate_tithi 0 180).name = "Pratipada" := by
  have hd0 : 0 ≤ pymod (m - s) 360 := pymod_nonneg _ (by norm_num)
  have hdlt : pymod (m - s) 360 < 360 := pymod_lt _ (by norm_num)
  have hk : pyint (pymod (m - s) 360 / 12) = ⌊pymod (m - s) 360 / 12⌋ :=
    pyint_of_nonneg (div_nonneg hd0 (by norm_num))
  have hlo : 0 ≤ ⌊pymod (m - s) 360 / 12⌋ :=
    Int.floor_nonneg.mpr (div_nonneg hd0 (by norm_num))
  have hhi : ⌊pymod (m - s) 360 / 12⌋ < 30 := by
    rw [Int.floor_lt, div_lt_iff₀ (by norm_num : (0:ℚ) < 12)]
    push_cast
    linarith
  refine ⟨?_, ?_, ?_, ?_, ?_, ?_, ?_, ?_, ?_, ?_, ?_, ?_, ?_⟩
  · simp only [Panchanga.calculate_tithi]
    rw [hk]
  · simp only [Panchanga.calculate_tithi]
    rw [hk]
    omega
  · simp only [Panchanga.calculate_tithi]
    rw [hk]
    omega
  · simp only [Panchanga.calculate_tithi]
    rw [hk]
    split_ifs with h
    · exact ⟨fun _ => h, fun _ => rfl⟩
    · exact ⟨fun hc => absurd hc (by decide), fun hc => absurd hc h⟩
  · simp only [Panchanga.calculate_tithi]
    rw [hk]
    split_ifs with h
    · exact ⟨fun hc => absurd hc (by decide), fun h16 => absurd h16 (by omega)⟩
    · exact ⟨fun _ => by omega, fun _ => rfl⟩
  · simp only [Panchanga.calculate_tithi]
    rw [hk]
    intro h
    rw [if_pos h]
  · simp only [Panchanga.calculate_tithi]
    rw [hk]
    intro h
    rw [if_neg (by omega), if_pos h]
  · norm_num [Panchanga.calculate_tithi, pymod, pyint]
  · norm_num [Panchanga.calculate_tithi, pymod, pyint, Panchanga.TITHI_NAMES]
  · norm_num [Panchanga.calculate_tithi, pymod, pyint]
  · norm_num [Panchanga.calculate_tithi, pymod, pyint]
  · norm_num [Panchanga.calculate_tithi, pymod, pyint]
  · norm_num [Panchanga.calculate_tithi, pymod, pyint, Panchanga.TITHI_NAMES]

/-- C8 witness: at `sun = 0, moon = 168` the number is 15 and the name
override to Purnima fires. -/
theorem calculate_tithi_purnima_witness :
    (Panchanga.calculate_tithi 0 168).number = 15 ∧
      (Panchanga.calculate_tithi 0 168).name = "Purnima" :=
  ⟨by norm_num [Panchanga.calculate_tithi, pymod, pyint],
   (calculate_tithi_spec 0 168).2.2.2.2.2.1
     (by norm_num [Panchanga.calculate_tithi, pymod, pyint])⟩

/-- C6: the navamsa sign is `(startingSign + ⌊degreeInSign / (30/9)⌋) mod 12`
with the starting sign keyed by the element of the D1 sign (fire → 0,
earth → 9, air → 6, water → 3), and `is_vargottama` holds exactly when
the D1 sign equals the D9 sign, as an exact equality with no
tolerance. -/
theorem calculate_navamsa_element_formula (L : ℚ) :
    (DivisionalCharts.calculate_navamsa L).rashi =
      ((if (DivisionalCharts.calculate_d1 L).rashi ∈ DivisionalCharts.FIRE_SIGNS then 0
        else if (DivisionalCharts.calculate_d1 L).rashi ∈ DivisionalCharts.EARTH_SIGNS then 9
        else if (DivisionalCharts.calculate_d1 L).rashi ∈ DivisionalCharts.AIR_SIGNS then 6
        else 3) + ⌊DivisionalCharts.get_degree_in_rashi L / (30 / 9)⌋) % 12 ∧
    (DivisionalCharts.is_vargottama L = true ↔
      (DivisionalCharts.calculate_d1 L).rashi = (DivisionalCharts.calculate_navamsa L).rashi) := by
  constructor
  · have hdeg : 0 ≤ DivisionalCharts.get_degree_in_rashi L :=
      pymod_nonneg _ (by norm_num)
    simp only [DivisionalCharts.calculate_navamsa, DivisionalCharts.calculate_d1]
    rw [pyint_of_nonneg (div_nonneg hdeg (by norm_num))]
  · simp only [DivisionalCharts.is_vargottama]
    exact beq_iff_eq

/-- C4: `calculate_dasha_balance` returns the Moon's mansion ruler as the
birth dasha lord, the elapsed fraction is degree-within-mansion over the
mansion span, the remaining years are `(1 − fraction) × weight-years`,
converted to days with a 365.25-day year; at Moon longitude 0 the lord
is Ketu with 7 total years and the first timeline period is flagged as
birth dasha, and at Moon longitude 46.5 the lord is Moon. -/
theorem calculate_dasha_balance_spec (m b : ℚ) :
    ((VimshottariDasha.calculate_dasha_balance m b).lord = (get_nakshatra m).lord ∧
     (VimshottariDasha.calculate_dasha_balance m b).elapsed_fraction =
       (get_nakshatra m).degree / NAKSHATRA_SPAN ∧
     (VimshottariDasha.calculate_dasha_balance m b).remaining_years =
       (1 - (VimshottariDasha.calculate_dasha_balance m b).elapsed_fraction) *
         DASHA_YEARS (get_nakshatra m).lord ∧
     (VimshottariDasha.calculate_dasha_balance m b).remaining_days =
       (VimshottariDasha.calculate_dasha_balance m b).remaining_years * DAYS_PER_YEAR) ∧
    ((VimshottariDasha.calculate_dasha_balance 0 b).lord = "Ketu" ∧
     (VimshottariDasha.calculate_dasha_balance 0 b).total_years = 7 ∧
     ∀ max_date : ℚ,
       ((VimshottariDasha.generate_mahadasha_timeline 0 b max_date).headD
         default).is_birth_dasha = true) ∧
    (VimshottariDasha.calculate_dasha_balance (46.5 : ℚ) b).lord = "Moon" := by
  have hlord0 : (get_nakshatra 0).lord = "Ketu" := by
    norm_num [get_nakshatra, pymod, pyint, NAKSHATRA_SPAN, PADA_SPAN, NAKSHATRAS]
  refine ⟨⟨rfl, rfl, ?_, rfl⟩, ⟨?_, ?_, ?_⟩, ?_⟩
  · simp only [VimshottariDasha.calculate_dasha_balance,
      VimshottariDasha.get_birth_dasha_lord, VimshottariDasha.get_elapsed_dasha_portion]
    ring
  · exact hlord0
  · show DASHA_YEARS (get_nakshatra 0).lord = 7
    rw [hlord0]
    rfl
  · intro max_date
    rfl
  · norm_num [VimshottariDasha.calculate_dasha_balance,
      VimshottariDasha.get_birth_dasha_lord, get_nakshatra, pymod, pyint,
      NAKSHATRA_SPAN, PADA_SPAN]
    rfl

/-- The six partition facts of `calculate_antardasha` for a mahadasha
whose lord is in the dasha sequence. -/
theorem calculate_antardasha_partition (M : DashaPeriodInfo)
    (hM : M.lord ∈ DASHA_SEQUENCE) :
    (VimshottariDasha.calculate_antardasha M).length = 9 ∧
    ((VimshottariDasha.calculate_antardasha M).map (fun p => p.lord)) =
      DASHA_SEQUENCE.rotateLeft (DASHA_SEQUENCE.indexOf M.lord) ∧
    ((VimshottariDasha.calculate_antardasha M).headD default).lord = M.lord ∧
    ((VimshottariDasha.calculate_antardasha M).headD default).start = M.start ∧
    (∀ i : ℕ, i + 1 < 9 →
      ((VimshottariDasha.calculate_antardasha M).getD (i+1) default).start =
        ((VimshottariDasha.calculate_antardasha M).getD i default).endDate) ∧
    ((VimshottariDasha.calculate_antardasha M).map (fun p => p.days)).sum =
      M.years * DAYS_PER_YEAR := by
  obtain ⟨l, st, en, yr, dy, ib⟩ := M
  simp only [DASHA_SEQUENCE, List.mem_cons, List.not_mem_nil, or_false] at hM
  have hr : List.range 9 = [0, 1, 2, 3, 4, 5, 6, 7, 8] := rfl
  rcases hM with h | h | h | h | h | h | h | h | h <;> subst h <;>
    refine ⟨rfl, by with_unfolding_all rfl, rfl, rfl, ?_, ?_⟩
  · intro i hi
    have h8 : i < 8 := by omega
    interval_cases i <;> rfl
  · have hidx : DASHA_SEQUENCE.indexOf "Ketu" = 0 := rfl
    simp only [VimshottariDasha.calculate_antardasha, hidx, hr]
    simp only [VimshottariDasha.antardasha_go, List.map_cons, List.map_nil, List.sum_cons, List.sum_nil]
    norm_num [DASHA_SEQUENCE, DASHA_YEARS, DAYS_PER_YEAR, TOTAL_DASHA_YEARS]
    ring
  · intro i hi
    have h8 : i < 8 := by omega
    interval_cases i <;> rfl
  · have hidx : DASHA_SEQUENCE.indexOf "Venus" = 1 := rfl
    simp only [VimshottariDasha.calculate_antardasha, hidx, hr]
    simp only [VimshottariDasha.antardasha_go, List.map_cons, List.map_nil, List.sum_cons, List.sum_nil]
    norm_num [DASHA_SEQUENCE, DASHA_YEARS, DAYS_PER_YEAR, TOTAL_DASHA_YEARS]
    ring
  · intro i hi
    have h8 : i < 8 := by omega
    interval_cases i <;> rfl
  · have hidx : DASHA_SEQUENCE.indexOf "Sun" = 2 := rfl
    simp only [VimshottariDasha.calculate_antardasha, hidx, hr]
    simp only [VimshottariDasha.antardasha_go, List.map_cons, List.map_nil, List.sum_cons, List.sum_nil]
    norm_num [DASHA_SEQUENCE, DASHA_YEARS, DAYS_PER_YEAR, TOTAL_DASHA_YEARS]
    ring
  · intro i hi
    have h8 : i < 8 := by omega
    interval_cases i <;> rfl
  · have hidx : DASHA_SEQUENCE.indexOf "Moon" = 3 := rfl
    simp only [VimshottariDasha.calculate_antardasha, hidx, hr]
    simp only [VimshottariDasha.antardasha_go, List.map_cons, List.map_nil, List.sum_cons, List.sum_nil]
    norm_num [DASHA_SEQUENCE, DASHA_YEARS, DAYS_PER_YEAR, TOTAL_DASHA_YEARS]
    ring
  · intro i hi
    have h8 : i < 8 := by omega
    interval_cases i <;> rfl
  · have hidx : DASHA_SEQUENCE.indexOf "Mars" = 4 := rfl
    simp only [VimshottariDasha.calculate_antardasha, hidx, hr]
    simp only [VimshottariDasha.antardasha_go, List.map_cons, List.map_nil, List.sum_cons, List.sum_nil]
    norm_num [DASHA_SEQUENCE, DASHA_YEARS, DAYS_PER_YEAR, TOTAL_DASHA_YEARS]
    ring
  · intro i hi
    have h8 : i < 8 := by omega
    interval_cases i <;> rfl
  · have hidx : DASHA_SEQUENCE.indexOf "Rahu" = 5 := rfl
    simp only [VimshottariDasha.calculate_antardasha, hidx, hr]
    simp only [VimshottariDasha.antardasha_go, List.map_cons, List.map_nil, List.sum_cons, List.sum_nil]
    norm_num [DASHA_SEQUENCE, DASHA_YEARS, DAYS_PER_YEAR, TOTAL_DASHA_YEARS]
    ring
  · intro i hi
    have h8 : i < 8 := by omega
    interval_cases i <;> rfl
  · have hidx : DASHA_SEQUENCE.indexOf "Jupiter" = 6 := rfl
    simp only [VimshottariDasha.calculate_antardasha, hidx, hr]
    simp only [VimshottariDasha.antardasha_go, List.map_cons, List.map_nil, List.sum_cons, List.sum_nil]
    norm_num [DASHA_SEQUENCE, DASHA_YEARS, DAYS_PER_YEAR, TOTAL_DASHA_YEARS]
    ring
  · intro i hi
    have h8 : i < 8 := by omega
    interval_cases i <;> rfl
  · have hidx : DASHA_SEQUENCE.indexOf "Saturn" = 7 := rfl
    simp only [VimshottariDasha.calculate_antardasha, hidx, hr]
    simp only [VimshottariDasha.antardasha_go, List.map_cons, List.map_nil, List.sum_cons, List.sum_nil]
    norm_num [DASHA_SEQUENCE, DASHA_YEARS, DAYS_PER_YEAR, TOTAL_DASHA_YEARS]
    ring
  · intro i hi
    have h8 : i < 8 := by omega
    interval_cases i <;> rfl
  · have hidx : DASHA_SEQUENCE.indexOf "Mercury" = 8 := rfl
    simp only [VimshottariDasha.calculate_antardasha, hidx, hr]
    simp only [VimshottariDasha.antardasha_go, List.map_cons, List.map_nil, List.sum_cons, List.sum_nil]
    norm_num [DASHA_SEQUENCE, DASHA_YEARS, DAYS_PER_YEAR, TOTAL_DASHA_YEARS]
    ring

/-- The six partition facts of `calculate_pratyantardasha` for an
antardasha whose lord is in the dasha sequence. -/
theorem calculate_pratyantardasha_partition (A : AntardashaPeriodInfo)
    (hA : A.lord ∈ DASHA_SEQUENCE) :
    (VimshottariDasha.calculate_pratyantardasha A).length = 9 ∧
    ((VimshottariDasha.calculate_pratyantardasha A).map (fun p => p.lord)) =
      DASHA_SEQUENCE.rotateLeft (DASHA_SEQUENCE.indexOf A.lord) ∧
    ((VimshottariDasha.calculate_pratyantardasha A).headD default).lord = A.lord ∧
    ((VimshottariDasha.calculate_pratyantardasha A).headD default).start = A.start ∧
    (∀ i : ℕ, i + 1 < 9 →
      ((VimshottariDasha.calculate_pratyantardasha A).getD (i+1) default).start =
        ((VimshottariDasha.calculate_pratyantardasha A).getD i default).endDate) ∧
    ((VimshottariDasha.calculate_pratyantardasha A).map (fun p => p.days)).sum =
      A.days := by
  obtain ⟨l, st, en, dy, md⟩ := A
  simp only [DASHA_SEQUENCE, List.mem_cons, List.not_mem_nil, or_false] at hA
  have hr : List.range 9 = [0, 1, 2, 3, 4, 5, 6, 7, 8] := rfl
  rcases hA with h | h | h | h | h | h | h | h | h <;> subst h <;>
    refine ⟨rfl, by with_unfolding_all rfl, rfl, rfl, ?_, ?_⟩
  · intro i hi
    have h8 : i < 8 := by omega
    interval_cases i <;> rfl
  · have hidx : DASHA_SEQUENCE.indexOf "Ketu" = 0 := rfl
    simp only [VimshottariDasha.calculate_pratyantardasha, hidx, hr]
    simp only [VimshottariDasha.pratyantardasha_go, List.map_cons, List.map_nil, List.sum_cons, List.sum_nil]
    norm_num [DASHA_SEQUENCE, DASHA_YEARS, DAYS_PER_YEAR, TOTAL_DASHA_YEARS]
    ring
  · intro i hi
    have h8 : i < 8 := by omega
    interval_cases i <;> rfl
  · have hidx : DASHA_SEQUENCE.indexOf "Venus" = 1 := rfl
    simp only [VimshottariDasha.calculate_pratyantardasha, hidx, hr]
    simp only [VimshottariDasha.pratyantardasha_go, List.map_cons, List.map_nil, List.sum_cons, List.sum_nil]
    norm_num [DASHA_SEQUENCE, DASHA_YEARS, DAYS_PER_YEAR, TOTAL_DASHA_YEARS]
    ring
  · intro i hi
    have h8 : i < 8 := by omega
    interval_cases i <;> rfl
  · have hidx : DASHA_SEQUENCE.indexOf "Sun" = 2 := rfl
    simp only [VimshottariDasha.calculate_pratyantardasha, hidx, hr]
    simp only [VimshottariDasha.pratyantardasha_go, List.map_cons, List.map_nil, List.sum_cons, List.sum_nil]
    norm_num [DASHA_SEQUENCE, DASHA_YEARS, DAYS_PER_YEAR, TOTAL_DASHA_YEARS]
    ring
  · intro i hi
    have h8 : i < 8 := by omega
    interval_cases i <;> rfl
  · have hidx : DASHA_SEQUENCE.indexOf "Moon" = 3 := rfl
    simp only [VimshottariDasha.calculate_pratyantardasha, hidx, hr]
    simp only [VimshottariDasha.pratyantardasha_go, List.map_cons, List.map_nil, List.sum_cons, List.sum_nil]
    norm_num [DASHA_SEQUENCE, DASHA_YEARS, DAYS_PER_YEAR, TOTAL_DASHA_YEARS]
    ring
  · intro i hi
    have h8 : i < 8 := by omega
    interval_cases i <;> rfl
  · have hidx : DASHA_SEQUENCE.indexOf "Mars" = 4 := rfl
    simp only [VimshottariDasha.calculate_pratyantardasha, hidx, hr]
    simp only [VimshottariDasha.pratyantardasha_go, List.map_cons, List.map_nil, List.sum_cons, List.sum_nil]
    norm_num [DASHA_SEQUENCE, DASHA_YEARS, DAYS_PER_YEAR, TOTAL_DASHA_YEARS]
    ring
  · intro i hi
    have h8 : i < 8 := by omega
    interval_cases i <;> rfl
  · have hidx : DASHA_SEQUENCE.indexOf "Rahu" = 5 := rfl
    simp only [VimshottariDasha.calculate_pratyantardasha, hidx, hr]
    simp only [VimshottariDasha.pratyantardasha_go, List.map_cons, List.map_nil, List.sum_cons, List.sum_nil]
    norm_num [DASHA_SEQUENCE, DASHA_YEARS, DAYS_PER_YEAR, TOTAL_DASHA_YEARS]
    ring
  · intro i hi
    have h8 : i < 8 := by omega
    interval_cases i <;> rfl
  · have hidx : DASHA_SEQUENCE.indexOf "Jupiter" = 6 := rfl
    simp only [VimshottariDasha.calculate_pratyantardasha, hidx, hr]
    simp only [VimshottariDasha.pratyantardasha_go, List.map_cons, List.map_nil, List.sum_cons, List.sum_nil]
    norm_num [DASHA_SEQUENCE, DASHA_YEARS, DAYS_PER_YEAR, TOTAL_DASHA_YEARS]
    ring
  · intro i hi
    have h8 : i < 8 := by omega
    interval_cases i <;> rfl
  · have hidx : DASHA_SEQUENCE.indexOf "Saturn" = 7 := rfl
    simp only [VimshottariDasha.calculate_pratyantardasha, hidx, hr]
    simp only [VimshottariDasha.pratyantardasha_go, List.map_cons, List.map_nil, List.sum_cons, List.sum_nil]
    norm_num [DASHA_SEQUENCE, DASHA_YEARS, DAYS_PER_YEAR, TOTAL_DASHA_YEARS]
    ring
  · intro i hi
    have h8 : i < 8 := by omega
    interval_cases i <;> rfl
  · have hidx : DASHA_SEQUENCE.indexOf "Mercury" = 8 := rfl
    simp only [VimshottariDasha.calculate_pratyantardasha, hidx, hr]
    simp only [VimshottariDasha.pratyantardasha_go, List.map_cons, List.map_nil, List.sum_cons, List.sum_nil]
    norm_num [DASHA_SEQUENCE, DASHA_YEARS, DAYS_PER_YEAR, TOTAL_DASHA_YEARS]
    ring

/-- C1: for a major period whose ruler is one of the nine dasha lords,
`calculate_antardasha` returns exactly 9 sub-periods whose rulers are
the fixed 9-ruler cyclic sequence rotated to start at the period's own
ruler (so the first sub-period's ruler is the period's ruler), which are
contiguous (the first starts at the period's start and each next starts
where the previous ends) and whose day durations sum exactly to
`years × 365.25`; and the same partition holds one level deeper for
`calculate_pratyantardasha` on any sub-period, whose sub-sub-period days
sum to the sub-period's days. -/
theorem antardasha_pratyantardasha_partition (M : DashaPeriodInfo)
    (hM : M.lord ∈ DASHA_SEQUENCE) (A : AntardashaPeriodInfo)
    (hA : A.lord ∈ DASHA_SEQUENCE) :
    ((VimshottariDasha.calculate_antardasha M).length = 9 ∧
     ((VimshottariDasha.calculate_antardasha M).map (fun p => p.lord)) =
       DASHA_SEQUENCE.rotateLeft (DASHA_SEQUENCE.indexOf M.lord) ∧
     ((VimshottariDasha.calculate_antardasha M).headD default).lord = M.lord ∧
     ((VimshottariDasha.calculate_antardasha M).headD default).start = M.start ∧
     (∀ i : ℕ, i + 1 < 9 →
       ((VimshottariDasha.calculate_antardasha M).getD (i+1) default).start =
         ((VimshottariDasha.calculate_antardasha M).getD i default).endDate) ∧
     ((VimshottariDasha.calculate_antardasha M).map (fun p => p.days)).sum =
       M.years * DAYS_PER_YEAR) ∧
    ((VimshottariDasha.calculate_pratyantardasha A).length = 9 ∧
     ((VimshottariDasha.calculate_pratyantardasha A).map (fun p => p.lord)) =
       DASHA_SEQUENCE.rotateLeft (DASHA_SEQUENCE.indexOf A.lord) ∧
     ((VimshottariDasha.calculate_pratyantardasha A).headD default).lord = A.lord ∧
     ((VimshottariDasha.calculate_pratyantardasha A).headD default).start = A.start ∧
     (∀ i : ℕ, i + 1 < 9 →
       ((VimshottariDasha.calculate_pratyantardasha A).getD (i+1) default).start =
         ((VimshottariDasha.calculate_pratyantardasha A).getD i default).endDate) ∧
     ((VimshottariDasha.calculate_pratyantardasha A).map (fun p => p.days)).sum =
       A.days) :=
  ⟨calculate_antardasha_partition M hM, calculate_pratyantardasha_partition A hA⟩

/-- C1 witness: the partition facts instantiated at a concrete Venus
mahadasha and a concrete Moon antardasha. -/
theorem antardasha_pratyantardasha_partition_witness :
    ("Venus" ∈ DASHA_SEQUENCE) ∧ ("Moon" ∈ DASHA_SEQUENCE) ∧
    (VimshottariDasha.calculate_antardasha ⟨"Venus", 0, 7305, 20, 7305, false⟩).length = 9 ∧
    ((VimshottariDasha.calculate_pratyantardasha ⟨"Moon", 0, 100, 100, "Venus"⟩).map
      (fun p => p.days)).sum = 100 :=
  ⟨by decide, by decide,
   (antardasha_pratyantardasha_partition ⟨"Venus", 0, 7305, 20, 7305, false⟩
     (by decide) ⟨"Moon", 0, 100, 100, "Venus"⟩ (by decide)).1.1,
   (antardasha_pratyantardasha_partition ⟨"Venus", 0, 7305, 20, 7305, false⟩
     (by decide) ⟨"Moon", 0, 100, 100, "Venus"⟩ (by decide)).2.2.2.2.2.2⟩

/-- Range invariant of a divisional position: degree in `[0, 30)`, sign
index in `0..11`, and the round-trip `sign * 30 + degree` in `[0, 360)`. -/
def PosInRange (p : DivisionalPosition) : Prop :=
  0 ≤ p.degree ∧ p.degree < 30 ∧ 0 ≤ p.rashi ∧ p.rashi ≤ 11 ∧
  0 ≤ (p.rashi : ℚ) * 30 + p.degree ∧ (p.rashi : ℚ) * 30 + p.degree < 360

theorem posInRange_mk {p : DivisionalPosition} (h1 : 0 ≤ p.rashi)
    (h2 : p.rashi ≤ 11) (h3 : 0 ≤ p.degree) (h4 : p.degree < 30) :
    PosInRange p := by
  have c1 : (0 : ℚ) ≤ (p.rashi : ℚ) := by exact_mod_cast h1
  have c2 : (p.rashi : ℚ) ≤ 11 := by exact_mod_cast h2
  exact ⟨h3, h4, h1, h2, by linarith, by linarith⟩

theorem pymod_scale_bounds (d : ℚ) {s k : ℚ} (hs : 0 < s) (hk : 0 < k) :
    0 ≤ pymod d s * k ∧ pymod d s * k < s * k :=
  ⟨mul_nonneg (pymod_nonneg d hs) (le_of_lt hk),
   mul_lt_mul_of_pos_right (pymod_lt d hs) hk⟩

theorem ddeg_nonneg (L : ℚ) : 0 ≤ DivisionalCharts.get_degree_in_rashi L :=
  pymod_nonneg _ (by norm_num)

theorem ddeg_lt (L : ℚ) : DivisionalCharts.get_degree_in_rashi L < 30 :=
  pymod_lt _ (by norm_num)

theorem drashi_bounds (L : ℚ) :
    0 ≤ DivisionalCharts.get_rashi L ∧ DivisionalCharts.get_rashi L ≤ 11 := by
  have h := pyint_div_bounds (pymod L 360) 30 (pymod_nonneg L (by norm_num))
    (by norm_num) 12 (by push_cast; linarith [pymod_lt L (by norm_num : (0:ℚ) < 360)])
  simp only [DivisionalCharts.get_rashi]
  exact ⟨h.1, by omega⟩

theorem mod12_nonneg (a : ℤ) : 0 ≤ a % 12 := Int.emod_nonneg a (by norm_num)

theorem mod12_le (a : ℤ) : a % 12 ≤ 11 := by
  have := Int.emod_lt_of_pos a (by norm_num : (0:ℤ) < 12)
  omega

theorem calculate_d1_in_range (L : ℚ) : PosInRange (DivisionalCharts.calculate_d1 L) :=
  posInRange_mk (drashi_bounds L).1 (drashi_bounds L).2 (ddeg_nonneg L) (ddeg_lt L)

theorem calculate_hora_in_range (L : ℚ) : PosInRange (DivisionalCharts.calculate_hora L) := by
  have hb := pymod_scale_bounds (DivisionalCharts.get_degree_in_rashi L)
    (show (0:ℚ) < 15 by norm_num) (show (0:ℚ) < 2 by norm_num)
  refine posInRange_mk ?_ ?_ ?_ ?_
  · simp only [DivisionalCharts.calculate_hora]
    split_ifs <;> norm_num
  · simp only [DivisionalCharts.calculate_hora]
    split_ifs <;> norm_num
  · simp only [DivisionalCharts.calculate_hora]
    linarith [hb.1]
  · simp only [DivisionalCharts.calculate_hora]
    linarith [hb.2]

theorem calculate_drekkana_in_range (L : ℚ) :
    PosInRange (DivisionalCharts.calculate_drekkana L) := by
  have hb := pymod_scale_bounds (DivisionalCharts.get_degree_in_rashi L)
    (show (0:ℚ) < 10 by norm_num) (show (0:ℚ) < 3 by norm_num)
  refine posInRange_mk ?_ ?_ ?_ ?_
  · simp only [DivisionalCharts.calculate_drekkana]
    split_ifs
    · exact (drashi_bounds L).1
    · exact mod12_nonneg _
    · exact mod12_nonneg _
  · simp only [DivisionalCharts.calculate_drekkana]
    split_ifs
    · exact (drashi_bounds L).2
    · exact mod12_le _
    · exact mod12_le _
  · simp only [DivisionalCharts.calculate_drekkana]
    linarith [hb.1]
  · simp only [DivisionalCharts.calculate_drekkana]
    linarith [hb.2]

theorem calculate_chaturthamsa_in_range (L : ℚ) :
    PosInRange (DivisionalCharts.calculate_chaturthamsa L) := by
  have hb := pymod_scale_bounds (DivisionalCharts.get_degree_in_rashi L)
    (show (0:ℚ) < 7.5 by norm_num) (show (0:ℚ) < 4 by norm_num)
  refine posInRange_mk (mod12_nonneg _) (mod12_le _) ?_ ?_
  · simp only [DivisionalCharts.calculate_chaturthamsa]
    linarith [hb.1]
  · simp only [DivisionalCharts.calculate_chaturthamsa]
    linarith [hb.2]

theorem calculate_saptamsa_in_range (L : ℚ) :
    PosInRange (DivisionalCharts.calculate_saptamsa L) := by
  have hb := pymod_scale_bounds (DivisionalCharts.get_degree_in_rashi L)
    (show (0:ℚ) < 30 / 7 by norm_num) (show (0:ℚ) < 30 / (30 / 7) by norm_num)
  refine posInRange_mk (mod12_nonneg _) (mod12_le _) ?_ ?_
  · simp only [DivisionalCharts.calculate_saptamsa]
    linarith [hb.1]
  · simp only [DivisionalCharts.calculate_saptamsa]
    linarith [hb.2]

theorem calculate_navamsa_in_range (L : ℚ) :
    PosInRange (DivisionalCharts.calculate_navamsa L) := by
  have hb := pymod_scale_bounds (DivisionalCharts.get_degree_in_rashi L)
    (show (0:ℚ) < 30 / 9 by norm_num) (show (0:ℚ) < 9 by norm_num)
  refine posInRange_mk (mod12_nonneg _) (mod12_le _) ?_ ?_
  · simp only [DivisionalCharts.calculate_navamsa]
    linarith [hb.1]
  · simp only [DivisionalCharts.calculate_navamsa]
    linarith [hb.2]

theorem calculate_dasamsa_in_range (L : ℚ) :
    PosInRange (DivisionalCharts.calculate_dasamsa L) := by
  have hb := pymod_scale_bounds (DivisionalCharts.get_degree_in_rashi L)
    (show (0:ℚ) < 3 by norm_num) (show (0:ℚ) < 10 by norm_num)
  refine posInRange_mk (mod12_nonneg _) (mod12_le _) ?_ ?_
  · simp only [DivisionalCharts.calculate_dasamsa]
    linarith [hb.1]
  · simp only [DivisionalCharts.calculate_dasamsa]
    linarith [hb.2]

theorem calculate_dwadasamsa_in_range (L : ℚ) :
    PosInRange (DivisionalCharts.calculate_dwadasamsa L) := by
  have hb := pymod_scale_bounds (DivisionalCharts.get_degree_in_rashi L)
    (show (0:ℚ) < 2.5 by norm_num) (show (0:ℚ) < 12 by norm_num)
  refine posInRange_mk (mod12_nonneg _) (mod12_le _) ?_ ?_
  · simp only [DivisionalCharts.calculate_dwadasamsa]
    linarith [hb.1]
  · simp only [DivisionalCharts.calculate_dwadasamsa]
    linarith [hb.2]

theorem calculate_shodasamsa_in_range (L : ℚ) :
    PosInRange (DivisionalCharts.calculate_shodasamsa L) := by
  have hb := pymod_scale_bounds (DivisionalCharts.get_degree_in_rashi L)
    (show (0:ℚ) < 30 / 16 by norm_num) (show (0:ℚ) < 16 by norm_num)
  refine posInRange_mk (mod12_nonneg _) (mod12_le _) ?_ ?_
  · simp only [DivisionalCharts.calculate_shodasamsa]
    linarith [hb.1]
  · simp only [DivisionalCharts.calculate_shodasamsa]
    linarith [hb.2]

theorem calculate_vimsamsa_in_range (L : ℚ) :
    PosInRange (DivisionalCharts.calculate_vimsamsa L) := by
  have hb := pymod_scale_bounds (DivisionalCharts.get_degree_in_rashi L)
    (show (0:ℚ) < 1.5 by norm_num) (show (0:ℚ) < 20 by norm_num)
  refine posInRange_mk (mod12_nonneg _) (mod12_le _) ?_ ?_
  · simp only [DivisionalCharts.calculate_vimsamsa]
    linarith [hb.1]
  · simp only [DivisionalCharts.calculate_vimsamsa]
    linarith [hb.2]

theorem calculate_chaturvimsamsa_in_range (L : ℚ) :
    PosInRange (DivisionalCharts.calculate_chaturvimsamsa L) := by
  have hb := pymod_scale_bounds (DivisionalCharts.get_degree_in_rashi L)
    (show (0:ℚ) < 1.25 by norm_num) (show (0:ℚ) < 24 by norm_num)
  refine posInRange_mk (mod12_nonneg _) (mod12_le _) ?_ ?_
  · simp only [DivisionalCharts.calculate_chaturvimsamsa]
    linarith [hb.1]
  · simp only [DivisionalCharts.calculate_chaturvimsamsa]
    linarith [hb.2]

theorem calculate_trimsamsa_in_range (L : ℚ) :
    PosInRange (DivisionalCharts.calculate_trimsamsa L) := by
  refine posInRange_mk ?_ ?_ (ddeg_nonneg L) (ddeg_lt L)
  · simp only [DivisionalCharts.calculate_trimsamsa]
    split_ifs <;>
      (simp only [DivisionalCharts.trimsamsa_pick]; split_ifs <;> norm_num)
  · simp only [DivisionalCharts.calculate_trimsamsa]
    split_ifs <;>
      (simp only [DivisionalCharts.trimsamsa_pick]; split_ifs <;> norm_num)

theorem calculate_shashtiamsa_in_range (L : ℚ) :
    PosInRange (DivisionalCharts.calculate_shashtiamsa L) := by
  have hb := pymod_scale_bounds (DivisionalCharts.get_degree_in_rashi L)
    (show (0:ℚ) < 0.5 by norm_num) (show (0:ℚ) < 60 by norm_num)
  refine posInRange_mk (mod12_nonneg _) (mod12_le _) ?_ ?_
  · simp only [DivisionalCharts.calculate_shashtiamsa]
    linarith [hb.1]
  · simp only [DivisionalCharts.calculate_shashtiamsa]
    linarith [hb.2]

/-- C5: for every longitude, each of the 13 divisional-chart functions
returns a position with degree in `[0, 30)`, sign index in `0..11` and
`sign * 30 + degree` in `[0, 360)`, and each internal division index
`int(degreeInSign / (30/N))` stays in `[0, N)` for the N-fold
divisions. -/
theorem divisional_positions_in_range (L : ℚ) :
    PosInRange (DivisionalCharts.calculate_d1 L) ∧
    PosInRange (DivisionalCharts.calculate_hora L) ∧
    PosInRange (DivisionalCharts.calculate_drekkana L) ∧
    PosInRange (DivisionalCharts.calculate_chaturthamsa L) ∧
    PosInRange (DivisionalCharts.calculate_saptamsa L) ∧
    PosInRange (DivisionalCharts.calculate_navamsa L) ∧
    PosInRange (DivisionalCharts.calculate_dasamsa L) ∧
    PosInRange (DivisionalCharts.calculate_dwadasamsa L) ∧
    PosInRange (DivisionalCharts.calculate_shodasamsa L) ∧
    PosInRange (DivisionalCharts.calculate_vimsamsa L) ∧
    PosInRange (DivisionalCharts.calculate_chaturvimsamsa L) ∧
    PosInRange (DivisionalCharts.calculate_trimsamsa L) ∧
    PosInRange (DivisionalCharts.calculate_shashtiamsa L) ∧
    (0 ≤ pyint (DivisionalCharts.get_degree_in_rashi L / 7.5) ∧
      pyint (DivisionalCharts.get_degree_in_rashi L / 7.5) < 4) ∧
    (0 ≤ pyint (DivisionalCharts.get_degree_in_rashi L / (30 / 7)) ∧
      pyint (DivisionalCharts.get_degree_in_rashi L / (30 / 7)) < 7) ∧
    (0 ≤ pyint (DivisionalCharts.get_degree_in_rashi L / (30 / 9)) ∧
      pyint (DivisionalCharts.get_degree_in_rashi L / (30 / 9)) < 9) ∧
    (0 ≤ pyint (DivisionalCharts.get_degree_in_rashi L / 3) ∧
      pyint (DivisionalCharts.get_degree_in_rashi L / 3) < 10) ∧
    (0 ≤ pyint (DivisionalCharts.get_degree_in_rashi L / 2.5) ∧
      pyint (DivisionalCharts.get_degree_in_rashi L / 2.5) < 12) ∧
    (0 ≤ pyint (DivisionalCharts.get_degree_in_rashi L / (30 / 16)) ∧
      pyint (DivisionalCharts.get_degree_in_rashi L / (30 / 16)) < 16) ∧
    (0 ≤ pyint (DivisionalCharts.get_degree_in_rashi L / 1.5) ∧
      pyint (DivisionalCharts.get_degree_in_rashi L / 1.5) < 20) ∧
    (0 ≤ pyint (DivisionalCharts.get_degree_in_rashi L / 1.25) ∧
      pyint (DivisionalCharts.get_degree_in_rashi L / 1.25) < 24) ∧
    (0 ≤ pyint (DivisionalCharts.get_degree_in_rashi L / 0.5) ∧
      pyint (DivisionalCharts.get_degree_in_rashi L / 0.5) < 60) :=
  ⟨calculate_d1_in_range L, calculate_hora_in_range L,
   calculate_drekkana_in_range L, calculate_chaturthamsa_in_range L,
   calculate_saptamsa_in_range L, calculate_navamsa_in_range L,
   calculate_dasamsa_in_range L, calculate_dwadasamsa_in_range L,
   calculate_shodasamsa_in_range L, calculate_vimsamsa_in_range L,
   calculate_chaturvimsamsa_in_range L, calculate_trimsamsa_in_range L,
   calculate_shashtiamsa_in_range L,
   pyint_div_bounds _ 7.5 (ddeg_nonneg L) (by norm_num) 4
     (by push_cast; linarith [ddeg_lt L]),
   pyint_div_bounds _ (30 / 7) (ddeg_nonneg L) (by norm_num) 7
     (by push_cast; linarith [ddeg_lt L]),
   pyint_div_bounds _ (30 / 9) (ddeg_nonneg L) (by norm_num) 9
     (by push_cast; linarith [ddeg_lt L]),
   pyint_div_bounds _ 3 (ddeg_nonneg L) (by norm_num) 10
     (by push_cast; linarith [ddeg_lt L]),
   pyint_div_bounds _ 2.5 (ddeg_nonneg L) (by norm_num) 12
     (by push_cast; linarith [ddeg_lt L]),
   pyint_div_bounds _ (30 / 16) (ddeg_nonneg L) (by norm_num) 16
     (by push_cast; linarith [ddeg_lt L]),
   pyint_div_bounds _ 1.5 (ddeg_nonneg L) (by norm_num) 20
     (by push_cast; linarith [ddeg_lt L]),
   pyint_div_bounds _ 1.25 (ddeg_nonneg L) (by norm_num) 24
     (by push_cast; linarith [ddeg_lt L]),
   pyint_div_bounds _ 0.5 (ddeg_nonneg L) (by norm_num) 60
     (by push_cast; linarith [ddeg_lt L])⟩


/-- C9: requesting a divisional chart with one of the 13 recognized
codes succeeds for any set of planet longitudes, while an unrecognized
code is rejected with a descriptive `Unknown division` error naming the
offending code, never silently coerced. -/
theorem get_divisional_chart_validation (division : String)
    (positions : List (String × ℚ)) :
    (division ∈ AdvancedChartService.DIVISION_CODES →
      ∃ c, AdvancedChartService.get_divisional_chart positions division =
        Except.ok c) ∧
    (division ∉ AdvancedChartService.DIVISION_CODES →
      AdvancedChartService.get_divisional_chart positions division =
        Except.error ("Unknown division: " ++ division)) := by
  constructor
  · intro h
    simp only [AdvancedChartService.DIVISION_CODES, List.mem_cons,
      List.not_mem_nil, or_false] at h
    rcases h with h | h | h | h | h | h | h | h | h | h | h | h | h <;>
      subst h <;> exact ⟨_, rfl⟩
  · intro hnot
    simp only [AdvancedChartService.DIVISION_CODES, List.mem_cons,
      List.not_mem_nil, or_false, not_or] at hnot
    obtain ⟨h1, h2, h3, h4, h5, h6, h7, h8, h9, h10, h11, h12, h13⟩ := hnot
    simp only [AdvancedChartService.get_divisional_chart,
      AdvancedChartService.method_map, List.lookup, beq_eq_false_iff_ne.mpr h1, beq_eq_false_iff_ne.mpr h2, beq_eq_false_iff_ne.mpr h3, beq_eq_false_iff_ne.mpr h4, beq_eq_false_iff_ne.mpr h5, beq_eq_false_iff_ne.mpr h6, beq_eq_false_iff_ne.mpr h7, beq_eq_false_iff_ne.mpr h8, beq_eq_false_iff_ne.mpr h9, beq_eq_false_iff_ne.mpr h10, beq_eq_false_iff_ne.mpr h11, beq_eq_false_iff_ne.mpr h12, beq_eq_false_iff_ne.mpr h13]

/-- C9 witness: `D9` is recognized and succeeds on a sample position
list; `DX` is not recognized and is rejected with the descriptive
error. -/
theorem get_divisional_chart_validation_witness :
    ("D9" ∈ AdvancedChartService.DIVISION_CODES ∧
      ∃ c, AdvancedChartService.get_divisional_chart [("SUN", 100)] "D9" =
        Except.ok c) ∧
    ("DX" ∉ AdvancedChartService.DIVISION_CODES ∧
      AdvancedChartService.get_divisional_chart [] "DX" =
        Except.error ("Unknown division: " ++ "DX")) :=
  ⟨⟨by decide, (get_divisional_chart_validation "D9" [("SUN", 100)]).1 (by decide)⟩,
   ⟨by decide, (get_divisional_chart_validation "DX" []).2 (by decide)⟩⟩


/-- Evaluation of `trikona_reduction` on an explicit 12-entry list: each
entry has the minimum of its 120-degree triad subtracted. -/
theorem trikona_reduction_explicit (x0 x1 x2 x3 x4 x5 x6 x7 x8 x9 x10 x11 : ℤ) :
    Ashtakavarga.trikona_reduction [x0, x1, x2, x3, x4, x5, x6, x7, x8, x9, x10, x11] =
      [x0 - min x0 (min x4 x8), x1 - min x1 (min x5 x9), x2 - min x2 (min x6 x10), x3 - min x3 (min x7 x11), x4 - min x0 (min x4 x8), x5 - min x1 (min x5 x9), x6 - min x2 (min x6 x10), x7 - min x3 (min x7 x11), x8 - min x0 (min x4 x8), x9 - min x1 (min x5 x9), x10 - min x2 (min x6 x10), x11 - min x3 (min x7 x11)] := by
  with_unfolding_all rfl

set_option maxHeartbeats 1000000 in
/-- C10: on a 12-entry non-negative bindu list, `trikona_reduction`
subtracts each triad minimum from the triad's three members, so every
entry stays non-negative, every triad contains at least one zero, and
the operation is idempotent. -/
theorem trikona_reduction_spec (x0 x1 x2 x3 x4 x5 x6 x7 x8 x9 x10 x11 : ℤ)
    (_h0 : 0 ≤ x0) (_h1 : 0 ≤ x1) (_h2 : 0 ≤ x2) (_h3 : 0 ≤ x3) (_h4 : 0 ≤ x4) (_h5 : 0 ≤ x5) (_h6 : 0 ≤ x6) (_h7 : 0 ≤ x7) (_h8 : 0 ≤ x8) (_h9 : 0 ≤ x9) (_h10 : 0 ≤ x10) (_h11 : 0 ≤ x11) :
    Ashtakavarga.trikona_reduction [x0, x1, x2, x3, x4, x5, x6, x7, x8, x9, x10, x11] =
      [x0 - min x0 (min x4 x8), x1 - min x1 (min x5 x9), x2 - min x2 (min x6 x10), x3 - min x3 (min x7 x11), x4 - min x0 (min x4 x8), x5 - min x1 (min x5 x9), x6 - min x2 (min x6 x10), x7 - min x3 (min x7 x11), x8 - min x0 (min x4 x8), x9 - min x1 (min x5 x9), x10 - min x2 (min x6 x10), x11 - min x3 (min x7 x11)] ∧
    (∀ y ∈ Ashtakavarga.trikona_reduction [x0, x1, x2, x3, x4, x5, x6, x7, x8, x9, x10, x11], 0 ≤ y) ∧
    ((x0 - min x0 (min x4 x8) = 0 ∨ x4 - min x0 (min x4 x8) = 0 ∨ x8 - min x0 (min x4 x8) = 0) ∧
    (x1 - min x1 (min x5 x9) = 0 ∨ x5 - min x1 (min x5 x9) = 0 ∨ x9 - min x1 (min x5 x9) = 0) ∧
    (x2 - min x2 (min x6 x10) = 0 ∨ x6 - min x2 (min x6 x10) = 0 ∨ x10 - min x2 (min x6 x10) = 0) ∧
    (x3 - min x3 (min x7 x11) = 0 ∨ x7 - min x3 (min x7 x11) = 0 ∨ x11 - min x3 (min x7 x11) = 0)) ∧
    Ashtakavarga.trikona_reduction (Ashtakavarga.trikona_reduction [x0, x1, x2, x3, x4, x5, x6, x7, x8, x9, x10, x11]) =
      Ashtakavarga.trikona_reduction [x0, x1, x2, x3, x4, x5, x6, x7, x8, x9, x10, x11] := by
  have heq := trikona_reduction_explicit x0 x1 x2 x3 x4 x5 x6 x7 x8 x9 x10 x11
  refine ⟨heq, ?_, ⟨by omega, by omega, by omega, by omega⟩, ?_⟩
  · intro y hy
    rw [heq] at hy
    simp only [List.mem_cons, List.not_mem_nil, or_false] at hy
    rcases hy with h | h | h | h | h | h | h | h | h | h | h | h <;> subst h <;> omega
  · rw [heq, trikona_reduction_explicit]
    refine List.cons_eq_cons.mpr ⟨by omega, ?_⟩
    refine List.cons_eq_cons.mpr ⟨by omega, ?_⟩
    refine List.cons_eq_cons.mpr ⟨by omega, ?_⟩
    refine List.cons_eq_cons.mpr ⟨by omega, ?_⟩
    refine List.cons_eq_cons.mpr ⟨by omega, ?_⟩
    refine List.cons_eq_cons.mpr ⟨by omega, ?_⟩
    refine List.cons_eq_cons.mpr ⟨by omega, ?_⟩
    refine List.cons_eq_cons.mpr ⟨by omega, ?_⟩
    refine List.cons_eq_cons.mpr ⟨by omega, ?_⟩
    refine List.cons_eq_cons.mpr ⟨by omega, ?_⟩
    refine List.cons_eq_cons.mpr ⟨by omega, ?_⟩
    exact List.cons_eq_cons.mpr ⟨by omega, rfl⟩

/-- C10 witness: the reduction facts at a concrete non-negative
profile. -/
theorem trikona_reduction_spec_witness :
    ((0:ℤ) ≤ 3 ∧ (0:ℤ) ≤ 5 ∧ (0:ℤ) ≤ 2 ∧ (0:ℤ) ≤ 7) ∧
    Ashtakavarga.trikona_reduction [3, 5, 2, 7, 1, 0, 4, 2, 6, 3, 2, 5] =
      [3 - min 3 (min 1 6), 5 - min 5 (min 0 3), 2 - min 2 (min 4 2),
       7 - min 7 (min 2 5), 1 - min 3 (min 1 6), 0 - min 5 (min 0 3),
       4 - min 2 (min 4 2), 2 - min 7 (min 2 5), 6 - min 3 (min 1 6),
       3 - min 5 (min 0 3), 2 - min 2 (min 4 2), 5 - min 7 (min 2 5)] :=
  ⟨⟨by norm_num, by norm_num, by norm_num, by norm_num⟩,
   (trikona_reduction_spec 3 5 2 7 1 0 4 2 6 3 2 5
     (by norm_num) (by norm_num) (by norm_num) (by norm_num) (by norm_num)
     (by norm_num) (by norm_num) (by norm_num) (by norm_num) (by norm_num)
     (by norm_num) (by norm_num)).1⟩

theorem list_set_getD (b : List ℕ) (i t v : ℕ) (hi : i < b.length) :
    (b.set i v).getD t 0 = if i = t then v else b.getD t 0 := by
  induction b generalizing i t with
  | nil => simp at hi
  | cons a l ih =>
    cases i with
    | zero =>
      cases t with
      | zero => simp
      | succ t' => simp
    | succ i' =>
      cases t with
      | zero => simp
      | succ t' =>
        simp only [List.set, List.getD_cons_succ]
        rw [ih i' t' (by simpa using hi)]
        simp [Nat.succ_inj]

theorem bump_length (b : List ℕ) (i : ℕ) : (Ashtakavarga.bump b i).length = b.length := by
  simp [Ashtakavarga.bump]

theorem bump_getD (b : List ℕ) (i t : ℕ) (hi : i < b.length) :
    (Ashtakavarga.bump b i).getD t 0 = b.getD t 0 + if i = t then 1 else 0 := by
  rw [Ashtakavarga.bump, list_set_getD _ _ _ _ hi]
  split_ifs with h
  · rw [h]
  · omega

theorem target_lt_12 (s h : ℤ) : ((s + h - 1) % 12).toNat < 12 := by
  have h1 := Int.emod_nonneg (s + h - 1) (by norm_num : (12:ℤ) ≠ 0)
  have h2 := Int.emod_lt_of_pos (s + h - 1) (by norm_num : (0:ℤ) < 12)
  omega

theorem add_source_bindus_length (s : ℤ) (hs : List ℤ) (b : List ℕ) :
    (Ashtakavarga.add_source_bindus s hs b).length = b.length := by
  induction hs generalizing b with
  | nil => rfl
  | cons x xs ih =>
    rw [Ashtakavarga.add_source_bindus, ih, bump_length]

theorem add_source_bindus_getD (s : ℤ) (hs : List ℤ) (b : List ℕ)
    (hb : b.length = 12) (t : ℕ) :
    (Ashtakavarga.add_source_bindus s hs b).getD t 0 =
      b.getD t 0 + hs.countP (fun h => ((s + h - 1) % 12).toNat == t) := by
  induction hs generalizing b with
  | nil => simp [Ashtakavarga.add_source_bindus]
  | cons x xs ih =>
    rw [Ashtakavarga.add_source_bindus,
      ih _ (by rw [bump_length]; exact hb),
      bump_getD b _ t (by rw [hb]; exact target_lt_12 s x),
      List.countP_cons]
    simp only [beq_iff_eq]
    split_ifs <;> omega

/-- Contribution of one source to one sign: how many of its benefic
houses land on target sign `t`. -/
def source_count (positions : String → Option ℤ) (ascendant_rashi : ℤ)
    (entry : String × List ℤ) (t : ℕ) : ℕ :=
  entry.2.countP (fun h =>
    ((Ashtakavarga.source_rashi positions ascendant_rashi entry.1 + h - 1) % 12).toNat == t)

theorem add_all_sources_length (positions : String → Option ℤ) (asc : ℤ)
    (tbl : List (String × List ℤ)) (b : List ℕ) :
    (Ashtakavarga.add_all_sources positions asc tbl b).length = b.length := by
  induction tbl generalizing b with
  | nil => rfl
  | cons e rest ih =>
    rw [Ashtakavarga.add_all_sources, ih, add_source_bindus_length]

theorem add_all_sources_getD (positions : String → Option ℤ) (asc : ℤ)
    (tbl : List (String × List ℤ)) (b : List ℕ) (hb : b.length = 12) (t : ℕ) :
    (Ashtakavarga.add_all_sources positions asc tbl b).getD t 0 =
      b.getD t 0 + (tbl.map (fun e => source_count positions asc e t)).sum := by
  induction tbl generalizing b with
  | nil => simp [Ashtakavarga.add_all_sources]
  | cons e rest ih =>
    rw [Ashtakavarga.add_all_sources,
      ih _ (by rw [add_source_bindus_length]; exact hb),
      add_source_bindus_getD _ _ _ hb, List.map_cons, List.sum_cons]
    rw [source_count]
    omega

theorem countP_le_one_target (s : ℤ) (t : ℕ) (hs : List ℤ) (hnd : hs.Nodup)
    (hb : ∀ h ∈ hs, 1 ≤ h ∧ h ≤ 12) :
    hs.countP (fun h => ((s + h - 1) % 12).toNat == t) ≤ 1 := by
  induction hs with
  | nil => simp
  | cons x xs ih =>
    rw [List.countP_cons]
    by_cases hx : (((s + x - 1) % 12).toNat == t) = true
    · have hz : xs.countP (fun h => ((s + h - 1) % 12).toNat == t) = 0 := by
        rw [List.countP_eq_zero]
        intro y hy hyt
        have hxb := hb x (by simp)
        have hyb := hb y (List.mem_cons_of_mem _ hy)
        have e1 : ((s + x - 1) % 12).toNat = t := by simpa using hx
        have e2 : ((s + y - 1) % 12).toNat = t := by simpa using hyt
        have m1 := Int.emod_nonneg (s + x - 1) (by norm_num : (12:ℤ) ≠ 0)
        have m2 := Int.emod_nonneg (s + y - 1) (by norm_num : (12:ℤ) ≠ 0)
        have hxy : x = y := by omega
        exact (List.nodup_cons.mp hnd).1 (hxy ▸ hy)
      rw [hz, hx]
      simp
    · have hrec := ih (List.nodup_cons.mp hnd).2
        (fun y hy => hb y (List.mem_cons_of_mem _ hy))
      simp only [Bool.not_eq_true] at hx
      rw [hx]
      simpa using hrec

/-- Sanity of a benefic-house table: at most 8 sources, and every house
list has no duplicates with entries in 1..12. -/
def table_ok (tbl : List (String × List ℤ)) : Bool :=
  tbl.length ≤ 8 &&
    tbl.all (fun e => decide e.2.Nodup && e.2.all (fun h => 1 ≤ h && h ≤ 12))

theorem tables_ok (p : String) (tbl : List (String × List ℤ))
    (h : Ashtakavarga.ASHTAKAVARGA_TABLES p = some tbl) : table_ok tbl = true := by
  unfold Ashtakavarga.ASHTAKAVARGA_TABLES at h
  split at h <;> simp only [Option.some.injEq, reduceCtorEq] at h <;> subst h <;> decide

theorem replicate_getD (n t : ℕ) : (List.replicate n (0:ℕ)).getD t 0 = 0 := by
  induction n generalizing t with
  | zero => simp
  | succ n ih =>
    cases t with
    | zero => simp [List.replicate]
    | succ t' => simp [List.replicate, ih]

theorem map_sum_le_length {α : Type} (l : List α) (f : α → ℕ)
    (hf : ∀ x ∈ l, f x ≤ 1) : (l.map f).sum ≤ l.length := by
  induction l with
  | nil => simp
  | cons x xs ih =>
    rw [List.map_cons, List.sum_cons, List.length_cons]
    have h1 := hf x (by simp)
    have h2 := ih (fun y hy => hf y (List.mem_cons_of_mem _ hy))
    omega

theorem bhinna_bindus_length (positions : String → Option ℤ) (asc : ℤ) (p : String) :
    (Ashtakavarga.calculate_bhinnashtaka positions asc p).bindus.length = 12 := by
  unfold Ashtakavarga.calculate_bhinnashtaka
  split
  · simp
  · simp only
    rw [add_all_sources_length]
    simp

theorem bhinna_bindus_getD_le (positions : String → Option ℤ) (asc : ℤ)
    (p : String) (t : ℕ) :
    (Ashtakavarga.calculate_bhinnashtaka positions asc p).bindus.getD t 0 ≤ 8 := by
  unfold Ashtakavarga.calculate_bhinnashtaka
  split
  · rw [replicate_getD]
    omega
  · next tbl htbl =>
    simp only
    rw [add_all_sources_getD _ _ _ _ (by simp) t, replicate_getD]
    have hok := tables_ok p tbl htbl
    simp only [table_ok, Bool.and_eq_true, decide_eq_true_eq, List.all_eq_true] at hok
    have hsum := map_sum_le_length tbl (fun e => source_count positions asc e t) ?_
    · omega
    · intro e he
      have hprops := hok.2 e he
      simp only [source_count]
      apply countP_le_one_target
      · exact hprops.1
      · intro h hh
        have := hprops.2 h hh
        simp only [Bool.and_eq_true, decide_eq_true_eq] at this
        exact this

theorem zipWith_add_getD (a b : List ℕ) (t : ℕ) (ht : t < a.length)
    (hlen : a.length = b.length) :
    (List.zipWith (· + ·) a b).getD t 0 = a.getD t 0 + b.getD t 0 := by
  induction a generalizing b t with
  | nil => simp at ht
  | cons x xs ih =>
    cases b with
    | nil => simp at hlen
    | cons y ys =>
      cases t with
      | zero => simp
      | succ t' =>
        simp only [List.zipWith_cons_cons, List.getD_cons_succ]
        exact ih ys t' (by simpa using ht) (by simpa using hlen)

theorem sum_bhinnas_length (positions : String → Option ℤ) (asc : ℤ)
    (ps : List String) (acc : List ℕ) (hacc : acc.length = 12) :
    (Ashtakavarga.sum_bhinnas positions asc ps acc).length = 12 := by
  induction ps generalizing acc with
  | nil => exact hacc
  | cons p rest ih =>
    rw [Ashtakavarga.sum_bhinnas]
    exact ih _ (by rw [List.length_zipWith, hacc, bhinna_bindus_length]; rfl)

theorem sum_bhinnas_getD (positions : String → Option ℤ) (asc : ℤ)
    (ps : List String) (acc : List ℕ) (hacc : acc.length = 12) (t : ℕ)
    (ht : t < 12) :
    (Ashtakavarga.sum_bhinnas positions asc ps acc).getD t 0 =
      acc.getD t 0 +
        (ps.map (fun p =>
          (Ashtakavarga.calculate_bhinnashtaka positions asc p).bindus.getD t 0)).sum := by
  induction ps generalizing acc with
  | nil => simp [Ashtakavarga.sum_bhinnas]
  | cons p rest ih =>
    rw [Ashtakavarga.sum_bhinnas,
      ih _ (by rw [List.length_zipWith, hacc, bhinna_bindus_length]; rfl),
      zipWith_add_getD _ _ t (by omega) (by rw [hacc, bhinna_bindus_length]),
      List.map_cons, List.sum_cons]
    omega

/-- C3: for every assignment of planet rashis and ascendant rashi, each
entry of a per-planet Bhinnashtakavarga profile is a non-negative
integer at most 8 (12 entries, at most one point per source), and each
entry of the combined Sarvashtakavarga profile is the element-wise sum
of the 7 per-planet entries and hence at most 56. -/
theorem ashtakavarga_bounds (positions : String → Option ℤ) (asc : ℤ) :
    (∀ planet : String,
      (Ashtakavarga.calculate_bhinnashtaka positions asc planet).bindus.length = 12 ∧
      ∀ t : ℕ, t < 12 →
        0 ≤ (Ashtakavarga.calculate_bhinnashtaka positions asc planet).bindus.getD t 0 ∧
        (Ashtakavarga.calculate_bhinnashtaka positions asc planet).bindus.getD t 0 ≤ 8) ∧
    ((Ashtakavarga.calculate_sarvashtaka positions asc).bindus.length = 12 ∧
     ∀ t : ℕ, t < 12 →
       (Ashtakavarga.calculate_sarvashtaka positions asc).bindus.getD t 0 =
         (Ashtakavarga.SARVA_PLANETS.map (fun p =>
           (Ashtakavarga.calculate_bhinnashtaka positions asc p).bindus.getD t 0)).sum ∧
       (Ashtakavarga.calculate_sarvashtaka positions asc).bindus.getD t 0 ≤ 56) := by
  have hsarva : ∀ t : ℕ, t < 12 →
      (Ashtakavarga.calculate_sarvashtaka positions asc).bindus.getD t 0 =
        (Ashtakavarga.SARVA_PLANETS.map (fun p =>
          (Ashtakavarga.calculate_bhinnashtaka positions asc p).bindus.getD t 0)).sum := by
    intro t ht
    simp only [Ashtakavarga.calculate_sarvashtaka]
    rw [sum_bhinnas_getD _ _ _ _ (by simp) t ht, replicate_getD]
    omega
  refine ⟨fun planet => ⟨bhinna_bindus_length positions asc planet,
    fun t _ => ⟨Nat.zero_le _, bhinna_bindus_getD_le positions asc planet t⟩⟩,
    ?_, fun t ht => ⟨hsarva t ht, ?_⟩⟩
  · simp only [Ashtakavarga.calculate_sarvashtaka]
    exact sum_bhinnas_length _ _ _ _ (by simp)
  · rw [hsarva t ht]
    have hle : ∀ p : String,
        (Ashtakavarga.calculate_bhinnashtaka positions asc p).bindus.getD t 0 ≤ 8 :=
      fun p => bhinna_bindus_getD_le positions asc p t
    simp only [Ashtakavarga.SARVA_PLANETS, List.map_cons, List.map_nil,
      List.sum_cons, List.sum_nil]
    have h1 := hle "SUN"
    have h2 := hle "MOON"
    have h3 := hle "MARS"
    have h4 := hle "MERCURY"
    have h5 := hle "JUPITER"
    have h6 := hle "VENUS"
    have h7 := hle "SATURN"
    omega

/-- C3 witness: the bounds at a concrete chart (all planets in Aries,
ascendant Aries), for the Sun's profile at sign 0. -/
theorem ashtakavarga_bounds_witness :
    (0 : ℕ) < 12 ∧
    (Ashtakavarga.calculate_bhinnashtaka (fun _ => some 0) 0 "SUN").bindus.getD 0 0 ≤ 8 ∧
    (Ashtakavarga.calculate_sarvashtaka (fun _ => some 0) 0).bindus.getD 0 0 ≤ 56 :=
  ⟨by norm_num,
   ((ashtakavarga_bounds (fun _ => some 0) 0).1 "SUN").2 0 (by norm_num) |>.2,
   ((ashtakavarga_bounds (fun _ => some 0) 0).2.2 0 (by norm_num)).2⟩

theorem venus_sthana_eval :
    Shadbala.calculate_sthana_bala 11 "VENUS" (28659/500) (fun _ => none) = 14149/10000 := by
  norm_num [Shadbala.calculate_sthana_bala, Shadbala.calculate_uccha_bala,
    Shadbala.DEBILITATION_DEGREES, Shadbala.EXALTATION_DEGREES,
    Shadbala.calculate_saptavargaja_bala, Shadbala.get_dignity, Shadbala.OWN_SIGNS,
    Shadbala.calculate_ojhayugma_bala, Shadbala.calculate_kendradi_bala,
    Shadbala.get_house, Shadbala.calculate_drekkana_bala, pymod, pyint,
    abs_of_nonneg, abs_of_nonpos]

theorem venus_dig_eval :
    Shadbala.calculate_dig_bala 11 "VENUS" (pyint ((28659/500) / 30)) = 5/6 := by
  norm_num [Shadbala.calculate_dig_bala, Shadbala.DIG_BALA_POSITIONS,
    Shadbala.get_house, pymod, pyint, abs_of_nonneg, abs_of_nonpos]

theorem venus_kala_eval : Shadbala.calculate_kala_bala false "VENUS" = 0 := by
  norm_num [Shadbala.calculate_kala_bala]

theorem venus_chesta_eval : Shadbala.calculate_chesta_bala "VENUS" 1 = 1/4 := by
  norm_num [Shadbala.calculate_chesta_bala]
  decide

theorem venus_naisargika_eval :
    Shadbala.calculate_naisargika_bala "VENUS" = 857/1200 := by
  norm_num [Shadbala.calculate_naisargika_bala, Shadbala.NATURAL_STRENGTH]

theorem venus_drik_eval : Shadbala.calculate_drik_bala [] = 1/2 := by
  norm_num [Shadbala.calculate_drik_bala]
/-- C2 counterexample: for Venus at longitude 57.318 with ascendant
Aquarius, night birth, direct motion, no divisional positions and no
aspects, the reported rounded total (3.71) differs from the sum of the
six reported rounded components (3.70). -/
theorem shadbala_reported_total_ne_component_sum :
    (Shadbala.calculate_shadbala 11 false "VENUS" (28659/500) 1 (fun _ => none) []).total_shadbala ≠
      (Shadbala.calculate_shadbala 11 false "VENUS" (28659/500) 1 (fun _ => none) []).sthana_bala +
      (Shadbala.calculate_shadbala 11 false "VENUS" (28659/500) 1 (fun _ => none) []).dig_bala +
      (Shadbala.calculate_shadbala 11 false "VENUS" (28659/500) 1 (fun _ => none) []).kala_bala +
      (Shadbala.calculate_shadbala 11 false "VENUS" (28659/500) 1 (fun _ => none) []).chesta_bala +
      (Shadbala.calculate_shadbala 11 false "VENUS" (28659/500) 1 (fun _ => none) []).naisargika_bala +
      (Shadbala.calculate_shadbala 11 false "VENUS" (28659/500) 1 (fun _ => none) []).drik_bala := by
  have hs : (Shadbala.calculate_shadbala 11 false "VENUS" (28659/500) 1 (fun _ => none) []) =
      { planet := "VENUS",
        sthana_bala := pyround2 (14149/10000),
        dig_bala := pyround2 (5/6),
        kala_bala := pyround2 0,
        chesta_bala := pyround2 (1/4),
        naisargika_bala := pyround2 (857/1200),
        drik_bala := pyround2 (1/2),
        total_shadbala := pyround2 (14149/10000 + 5/6 + 0 + 1/4 + 857/1200 + 1/2),
        required_strength := Shadbala.MINIMUM_SHADBALA "VENUS",
        is_strong := decide (Shadbala.MINIMUM_SHADBALA "VENUS" ≤
          (14149/10000 + 5/6 + 0 + 1/4 + 857/1200 + 1/2 : ℚ)) } := by
    simp only [Shadbala.calculate_shadbala, venus_sthana_eval, venus_dig_eval,
      venus_kala_eval, venus_chesta_eval, venus_naisargika_eval, venus_drik_eval]
  rw [hs]
  norm_num [pyround2, rndHalfEven, Int.fract]

theorem pyround2_sum6_close (a b c d e f : ℚ) :
    |pyround2 (a + b + c + d + e + f) -
      (pyround2 a + pyround2 b + pyround2 c + pyround2 d + pyround2 e + pyround2 f)| ≤
      7/200 := by
  have h0 := abs_le.mp (pyround2_err (a + b + c + d + e + f))
  have h1 := abs_le.mp (pyround2_err a)
  have h2 := abs_le.mp (pyround2_err b)
  have h3 := abs_le.mp (pyround2_err c)
  have h4 := abs_le.mp (pyround2_err d)
  have h5 := abs_le.mp (pyround2_err e)
  have h6 := abs_le.mp (pyround2_err f)
  rw [abs_le]
  constructor <;> linarith

/-- C2 (amended): each reported strength component is the unrounded
component rounded to two decimals, the reported total is the unrounded
six-component sum rounded to two decimals (so it can differ from the
sum of the six reported components, though by at most 0.035), and
`is_strong` holds exactly when the unrounded total reaches the static
per-planet minimum. -/
theorem calculate_shadbala_spec (asc : ℤ) (day : Bool) (planet : String)
    (longitude speed : ℚ) (vp : String → Option ℤ) (aspects : List String) :
    (Shadbala.calculate_shadbala asc day planet longitude speed vp aspects).sthana_bala =
      pyround2 (Shadbala.calculate_sthana_bala asc planet longitude vp) ∧
    (Shadbala.calculate_shadbala asc day planet longitude speed vp aspects).dig_bala =
      pyround2 (Shadbala.calculate_dig_bala asc planet (pyint (longitude / 30))) ∧
    (Shadbala.calculate_shadbala asc day planet longitude speed vp aspects).kala_bala =
      pyround2 (Shadbala.calculate_kala_bala day planet) ∧
    (Shadbala.calculate_shadbala asc day planet longitude speed vp aspects).chesta_bala =
      pyround2 (Shadbala.calculate_chesta_bala planet speed) ∧
    (Shadbala.calculate_shadbala asc day planet longitude speed vp aspects).naisargika_bala =
      pyround2 (Shadbala.calculate_naisargika_bala planet) ∧
    (Shadbala.calculate_shadbala asc day planet longitude speed vp aspects).drik_bala =
      pyround2 (Shadbala.calculate_drik_bala aspects) ∧
    (Shadbala.calculate_shadbala asc day planet longitude speed vp aspects).total_shadbala =
      pyround2 (Shadbala.calculate_sthana_bala asc planet longitude vp +
        Shadbala.calculate_dig_bala asc planet (pyint (longitude / 30)) +
        Shadbala.calculate_kala_bala day planet +
        Shadbala.calculate_chesta_bala planet speed +
        Shadbala.calculate_naisargika_bala planet +
        Shadbala.calculate_drik_bala aspects) ∧
    ((Shadbala.calculate_shadbala asc day planet longitude speed vp aspects).is_strong = true ↔
      Shadbala.MINIMUM_SHADBALA planet ≤
        Shadbala.calculate_sthana_bala asc planet longitude vp +
        Shadbala.calculate_dig_bala asc planet (pyint (longitude / 30)) +
        Shadbala.calculate_kala_bala day planet +
        Shadbala.calculate_chesta_bala planet speed +
        Shadbala.calculate_naisargika_bala planet +
        Shadbala.calculate_drik_bala aspects) ∧
    |(Shadbala.calculate_shadbala asc day planet longitude speed vp aspects).total_shadbala -
      ((Shadbala.calculate_shadbala asc day planet longitude speed vp aspects).sthana_bala +
       (Shadbala.calculate_shadbala asc day planet longitude speed vp aspects).dig_bala +
       (Shadbala.calculate_shadbala asc day planet longitude speed vp aspects).kala_bala +
       (Shadbala.calculate_shadbala asc day planet longitude speed vp aspects).chesta_bala +
       (Shadbala.calculate_shadbala asc day planet longitude speed vp aspects).naisargika_bala +
       (Shadbala.calculate_shadbala asc day planet longitude speed vp aspects).drik_bala)| ≤
      7/200 := by
  refine ⟨rfl, rfl, rfl, rfl, rfl, rfl, rfl, ?_, ?_⟩
  · simp only [Shadbala.calculate_shadbala]
    exact decide_eq_true_iff
  · simp only [Shadbala.calculate_shadbala]
    exact pyround2_sum6_close _ _ _ _ _ _
end Vedi
